import Mathlib

/-!
# Verification of the Real_Estate_AI valuation pipeline

Shallow embedding of the Python backend (`backend/app/agents/*.py`,
`backend/app/api/query.py`) of the Real_Estate_AI repository, together with
proofs and refutations of the frozen specification claims.

Modelling conventions:
* Python `float` values are modelled as exact rationals (`ℚ`); IEEE-754
  rounding is not bit-modelled (none of the claims depend on it).
* Python dictionaries holding request features are association lists from
  string keys to `FVal` (a Python value: `None`, a number, or a string).
* Fallible Python code (operations that can raise `TypeError`,
  `ZeroDivisionError`, `ValueError`, ...) is modelled in the `Except String`
  monad; a `try/except` block becomes a `match` on the `Except` result.
* Calls to external services (the Gemini LLM, the random number generator,
  `math.sin`/`math.cos`/`math.sqrt`) are oracle parameters: arbitrary
  functions/values supplied as arguments, so every theorem quantifies over
  all possible behaviours of the externals.
-/

namespace RealEstateAI

/-! ## Numeric helpers (Python semantics) -/

/-- Python `round` to an integer: round-half-to-even (banker's rounding). -/
def roundHalfEven (q : ℚ) : ℤ :=
  let f : ℤ := ⌊q⌋
  let r : ℚ := q - (f : ℚ)
  if r < 1/2 then f
  else if r > 1/2 then f + 1
  else if Even f then f else f + 1

/-- Python `round(x, n)`: round to `n` decimal places, half to even. -/
def roundTo (n : ℕ) (q : ℚ) : ℚ :=
  (roundHalfEven (q * (10 : ℚ) ^ n) : ℚ) / (10 : ℚ) ^ n

/-- Python float `x % 1.0` for a finite float: the fractional part
(the result carries the sign of the divisor, here positive). -/
def pymod1 (q : ℚ) : ℚ := q - (⌊q⌋ : ℚ)

/-- Python `int(x)` on a float: truncation toward zero. -/
def pyint (q : ℚ) : ℤ := q.num / q.den

/-! ## Python values and feature dictionaries -/

/-- A Python value as it appears in a feature dictionary: `None`, a number
(int/float collapsed to `ℚ`), or a string. -/
inductive FVal where
  | none
  | num (q : ℚ)
  | str (s : String)
deriving DecidableEq, Repr

/-- A Python `dict` of request features: an association list (first binding
wins on lookup, mirroring key uniqueness of Python dicts). -/
abbrev Features := List (String × FVal)

/-- `features.get(k)` / `features[k]` when present. -/
def fget (f : Features) (k : String) : Option FVal := f.lookup k

/-- `features.get(k, d)`. -/
def fgetD (f : Features) (k : String) (d : FVal) : FVal := (fget f k).getD d

/-- `k in features and features[k] is not None`. -/
def fpresent (f : Features) (k : String) : Bool :=
  match fget f k with
  | some v => v != FVal.none
  | none => false

/-- Python truthiness of a value (`if v:`). -/
def FVal.truthy : FVal → Bool
  | .none => false
  | .num q => q != 0
  | .str s => s != ""

/-- Numeric coercion as used by Python float arithmetic: a `TypeError` is
raised when the operand is `None` or a string. -/
def FVal.asNum : FVal → Except String ℚ
  | .num q => .ok q
  | .none => .error "TypeError"
  | .str _ => .error "TypeError"

/-- Python `x + y` on feature values: number addition, string concatenation,
`TypeError` on a mixed pair or `None`. -/
def pyAdd : FVal → FVal → Except String FVal
  | .num a, .num b => .ok (.num (a + b))
  | .str a, .str b => .ok (.str (a ++ b))
  | _, _ => .error "TypeError"

/-- Python `x % 1.0` on a feature value (string formatting with a float
argument raises). -/
def pyMod1 : FVal → Except String ℚ
  | .num q => .ok (pymod1 q)
  | _ => .error "TypeError"

/-- Python `x > c` against a numeric constant: `None > c` and `"s" > c`
raise `TypeError`. -/
def pyGtNum (v : FVal) (c : ℚ) : Except String Bool :=
  match v with
  | .num q => .ok (decide (q > c))
  | _ => .error "TypeError"

/-- Python `x / e` of a feature value by a nonzero float. -/
def pyDivNum (v : FVal) (e : ℚ) : Except String ℚ :=
  match v with
  | .num q => .ok (q / e)
  | _ => .error "TypeError"

/-- Python `str(v)` (f-string interpolation `f"{v}"`).  The decimal rendering
of floats (`repr`) is not bit-modelled: numbers are rendered from the
rational; claims never inspect such text. -/
def showQ (q : ℚ) : String :=
  if q.den == 1 then toString q.num else toString q.num ++ "/" ++ toString q.den

def FVal.pystr : FVal → String
  | .none => "None"
  | .num q => showQ q
  | .str s => s

/-- Digit-grouping of an integer with commas, as in Python `f"{n:,}"`. -/
def commaGroup (l : List Char) : List Char :=
  let rec go : List Char → ℕ → List Char
    | [], _ => []
    | c :: rest, k =>
        if k % 3 == 0 && k != 0 then c :: ',' :: go rest (k+1)
        else c :: go rest (k+1)
  (go l.reverse 0).reverse

def fmtComma (n : ℤ) : String :=
  if n < 0 then "-" ++ String.mk (commaGroup (toString (-n)).data)
  else String.mk (commaGroup (toString n).data)

/-- Fixed-point formatting `f"{q:.nf}"` (round half-even, `n` decimals). -/
def formatFixed (n : ℕ) (q : ℚ) : String :=
  let scaled := roundHalfEven (q * (10 : ℚ) ^ n)
  let sgn := if scaled < 0 then "-" else ""
  let a := scaled.natAbs
  let ip := a / 10 ^ n
  let fp := a % 10 ^ n
  let fpStr := toString fp
  let pad := String.mk (List.replicate (n - fpStr.length) '0')
  if n == 0 then sgn ++ toString ip
  else sgn ++ toString ip ++ "." ++ pad ++ fpStr

/-- Python format `f"{v:.nf}"`: raises on non-numeric values. -/
def pyFormatF (v : FVal) (n : ℕ) : Except String String :=
  match v with
  | .num q => .ok (formatFixed n q)
  | _ => .error "ValueError"

/-- Python format `f"{v:,.0f}"`: grouped integer rendering of a float;
raises on non-numeric values. -/
def pyFormatCommaF0 (v : FVal) : Except String String :=
  match v with
  | .num q => .ok (fmtComma (roundHalfEven q))
  | _ => .error "ValueError"

/-- Python format `f"{q:.1%}"`. -/
def formatPercent1 (q : ℚ) : String := formatFixed 1 (q * 100) ++ "%"

/-! ## Deal Evaluator (`app/agents/deal_agent.py`) -/

/-- Result dictionary of `DealAgent.evaluate_deal`.  The `error` field models
the extra `"error"` key present only in the exception-path dictionary. -/
structure DealResult where
  verdict : String
  why : String
  confidence : ℚ
  error : Option String
deriving DecidableEq, Repr

/-- Joined explanation text of `DealAgent._generate_explanation`, keyed by
the verdict (`aStr` is the already-formatted asking price). -/
def explText (aStr : String) (estimated ls rq : ℚ) (verdict : String) : String :=
  let e := fmtComma (roundHalfEven estimated)
  let lsPct := formatPercent1 ls
  if verdict == "Good Deal" then
    "This property is priced " ++ formatFixed 1 ((1 - rq) * 100) ++
    "% below the estimated market value." ++ " " ++
    "With an asking price of LKR " ++ aStr ++ " vs. estimated value of LKR " ++ e ++
    ", this represents excellent value." ++ " " ++
    "The location score of " ++ lsPct ++
    " indicates a desirable area, making this deal even more attractive."
  else if verdict == "Fair" then
    "This property is priced close to the estimated market value (ratio: " ++
    formatFixed 2 rq ++ ")." ++ " " ++
    "The asking price of LKR " ++ aStr ++ " aligns well with the estimated value of LKR " ++
    e ++ "." ++ " " ++
    "Given the location score of " ++ lsPct ++
    ", this pricing appears reasonable for the market."
  else if verdict == "Overpriced" then
    "This property is priced " ++ formatFixed 1 ((rq - 1) * 100) ++
    "% above the estimated market value." ++ " " ++
    "With an asking price of LKR " ++ aStr ++ " vs. estimated value of LKR " ++ e ++
    ", this may be overvalued." ++ " " ++
    "Even with a location score of " ++ lsPct ++ ", the price premium seems excessive."
  else "Unable to provide explanation."

/-- `DealAgent._generate_explanation`.  Python builds the whole
`explanations` dict eagerly, so every f-string is formatted regardless of
the verdict; a non-numeric `asking_price` raises inside the formatting. -/
def generate_explanation (asking : FVal) (estimated ls rq : ℚ)
    (verdict : String) : Except String String :=
  match pyFormatCommaF0 asking with
  | .error e => .error e
  | .ok a => .ok (explText a estimated ls rq verdict)

/-- Location-score confidence adjustment of `evaluate_deal`
(`+0.1` above `0.8`, `−0.1` below `0.4`). -/
def dealAdj (ls : ℚ) : ℚ :=
  if ls > 4/5 then 1/10 else if ls < 2/5 then -(1/10) else 0

/-- The `try:` body of `DealAgent.evaluate_deal`. -/
def dealBody (asking : FVal) (estimated ls : ℚ) : Except String DealResult :=
  match (if estimated > 0 then pyDivNum asking estimated else .ok 1) with
  | .error e => .error e
  | .ok rq =>
    let vc : String × ℚ :=
      if rq ≤ 17/20 then ("Good Deal", 4/5)
      else if rq ≤ 23/20 then ("Fair", 7/10)
      else ("Overpriced", 4/5)
    let conf := max (1/10) (min (19/20) (vc.2 + dealAdj ls))
    match generate_explanation asking estimated ls rq vc.1 with
    | .error e => .error e
    | .ok why => .ok ⟨vc.1, why, roundTo 2 conf, Option.none⟩

/-- `DealAgent.evaluate_deal`: rule-based verdict with a top-level
`except` returning the degraded `"Fair"` dictionary. -/
def evaluate_deal (asking : FVal) (estimated ls : ℚ) : DealResult :=
  match dealBody asking estimated ls with
  | .ok r => r
  | .error e =>
      ⟨"Fair", "Unable to evaluate deal due to insufficient data", 3/10, some e⟩

/-! ## JSON values and `json.loads` -/

/-- A decoded JSON value (`json.loads` output). -/
inductive JVal where
  | null
  | bool (b : Bool)
  | num (q : ℚ)
  | str (s : String)
  | arr (l : List JVal)
  | obj (l : List (String × JVal))
deriving Repr

/-- Python whitespace class `\s` (ASCII part; Unicode whitespace is not
modelled — no claim involves non-ASCII text). -/
def isPyWs (c : Char) : Bool :=
  c == ' ' || c == '\t' || c == '\n' || c == '\r' || c == '\x0b' || c == '\x0c'

/-- JSON inter-token whitespace. -/
def jsonWs (l : List Char) : List Char :=
  l.dropWhile (fun c => c == ' ' || c == '\t' || c == '\n' || c == '\r')

def parseHex (c : Char) : Option ℕ :=
  if c.isDigit then some (c.toNat - 48)
  else if 'a' ≤ c && c ≤ 'f' then some (c.toNat - 87)
  else if 'A' ≤ c && c ≤ 'F' then some (c.toNat - 55)
  else Option.none

/-- JSON string body scanner (after the opening quote): standard escapes and
`\uXXXX`; raw control characters are rejected (Python `json` strict mode). -/
def jstrGo : ℕ → List Char → List Char → Option (List Char × List Char)
  | 0, _, _ => Option.none
  | fuel+1, acc, l =>
    match l with
    | [] => Option.none
    | '"' :: rest => some (acc.reverse, rest)
    | '\\' :: esc =>
      match esc with
      | '"' :: r => jstrGo fuel ('"' :: acc) r
      | '\\' :: r => jstrGo fuel ('\\' :: acc) r
      | '/' :: r => jstrGo fuel ('/' :: acc) r
      | 'b' :: r => jstrGo fuel ('\x08' :: acc) r
      | 'f' :: r => jstrGo fuel ('\x0c' :: acc) r
      | 'n' :: r => jstrGo fuel ('\n' :: acc) r
      | 'r' :: r => jstrGo fuel ('\r' :: acc) r
      | 't' :: r => jstrGo fuel ('\t' :: acc) r
      | 'u' :: h1 :: h2 :: h3 :: h4 :: r =>
          match parseHex h1, parseHex h2, parseHex h3, parseHex h4 with
          | some a, some b, some c, some d =>
              jstrGo fuel (Char.ofNat (((a*16+b)*16+c)*16+d) :: acc) r
          | _, _, _, _ => Option.none
      | _ => Option.none
    | c :: rest =>
      if c.toNat < 32 then Option.none else jstrGo fuel (c :: acc) rest

def digitsToNat (l : List Char) : ℕ :=
  l.foldl (fun a c => a * 10 + (c.toNat - 48)) 0

/-- Optional fraction part of a JSON number. -/
def parseFrac (v : ℚ) : List Char → Option (ℚ × List Char)
  | '.' :: r =>
      let fp := r.takeWhile Char.isDigit
      if fp.isEmpty then Option.none
      else some (v + (digitsToNat fp : ℚ) / (10 : ℚ) ^ fp.length,
                 r.dropWhile Char.isDigit)
  | l => some (v, l)

/-- Optional exponent part of a JSON number. -/
def parseExp (v : ℚ) : List Char → Option (ℚ × List Char)
  | [] => some (v, [])
  | c :: r =>
      if c == 'e' || c == 'E' then
        let sr : Bool × List Char :=
          match r with
          | '+' :: rr => (true, rr)
          | '-' :: rr => (false, rr)
          | rr => (true, rr)
        let ds := sr.2.takeWhile Char.isDigit
        if ds.isEmpty then Option.none
        else some (if sr.1 then v * (10 : ℚ) ^ digitsToNat ds
                   else v / (10 : ℚ) ^ digitsToNat ds,
                   sr.2.dropWhile Char.isDigit)
      else some (v, c :: r)

/-- JSON number (no leading zeros, per the JSON grammar). -/
def parseJNum (l : List Char) : Option (ℚ × List Char) :=
  let sl : Bool × List Char := match l with | '-' :: r => (false, r) | _ => (true, l)
  let ip := sl.2.takeWhile Char.isDigit
  let r1 := sl.2.dropWhile Char.isDigit
  if ip.isEmpty then Option.none
  else if ip.length > 1 && ip.headD '0' == '0' then Option.none
  else do
    let (v1, r2) ← parseFrac (digitsToNat ip : ℚ) r1
    let (v2, r3) ← parseExp v1 r2
    some (if sl.1 then v2 else -v2, r3)

mutual

/-- JSON value parser (fuelled; the fuel strictly dominates the input
length, so `json_loads` below never exhausts it). -/
def parseJVal : ℕ → List Char → Option (JVal × List Char)
  | 0, _ => Option.none
  | fuel+1, l =>
    match jsonWs l with
    | [] => Option.none
    | c :: rest =>
      if c == '"' then
        (jstrGo (rest.length + 1) [] rest).map
          (fun p => (JVal.str (String.mk p.1), p.2))
      else if c == '{' then parseJObj fuel rest []
      else if c == '[' then parseJArr fuel rest []
      else if c == 't' then
        match rest with
        | 'r' :: 'u' :: 'e' :: r => some (JVal.bool true, r)
        | _ => Option.none
      else if c == 'f' then
        match rest with
        | 'a' :: 'l' :: 's' :: 'e' :: r => some (JVal.bool false, r)
        | _ => Option.none
      else if c == 'n' then
        match rest with
        | 'u' :: 'l' :: 'l' :: r => some (JVal.null, r)
        | _ => Option.none
      else (parseJNum (c :: rest)).map (fun p => (JVal.num p.1, p.2))

/-- JSON object members (positioned after `{` or after a `,`). -/
def parseJObj : ℕ → List Char → List (String × JVal) → Option (JVal × List Char)
  | 0, _, _ => Option.none
  | fuel+1, l, acc =>
    match jsonWs l with
    | '}' :: r => if acc.isEmpty then some (JVal.obj [], r) else Option.none
    | '"' :: r => do
        let (k, r1) ← jstrGo (r.length + 1) [] r
        match jsonWs r1 with
        | ':' :: r2 => do
            let (v, r3) ← parseJVal fuel r2
            let acc1 := acc ++ [(String.mk k, v)]
            match jsonWs r3 with
            | ',' :: r4 => parseJObj fuel r4 acc1
            | '}' :: r4 => some (JVal.obj acc1, r4)
            | _ => Option.none
        | _ => Option.none
    | _ => Option.none

/-- JSON array elements (positioned after `[` or after a `,`). -/
def parseJArr : ℕ → List Char → List JVal → Option (JVal × List Char)
  | 0, _, _ => Option.none
  | fuel+1, l, acc =>
    match jsonWs l with
    | ']' :: r => if acc.isEmpty then some (JVal.arr [], r) else Option.none
    | l1 => do
        let (v, r1) ← parseJVal fuel l1
        match jsonWs r1 with
        | ',' :: r2 => parseJArr fuel r2 (acc ++ [v])
        | ']' :: r2 => some (JVal.arr (acc ++ [v]), r2)
        | _ => Option.none

end

/-- `json.loads`: parse a complete document (trailing whitespace only);
`None` models a raised `json.JSONDecodeError`. -/
def json_loads (s : String) : Option JVal :=
  match parseJVal (s.length + 1) s.data with
  | some (v, rest) => if (jsonWs rest).isEmpty then some v else Option.none
  | Option.none => Option.none

/-- Dictionary lookup on a decoded object: Python dicts keep the *last*
binding for a duplicated JSON key. -/
def jget (l : List (String × JVal)) (k : String) : Option JVal :=
  l.reverse.lookup k

def jgetD (l : List (String × JVal)) (k : String) (d : JVal) : JVal :=
  (jget l k).getD d

/-- Python `float(str)` (common literal forms; `inf`/`nan`/underscore
literals are not modelled — no claim depends on them). -/
def pyFloatOfStr (s : String) : Except String ℚ :=
  let l := ((s.data.dropWhile isPyWs).reverse.dropWhile isPyWs).reverse
  let sl : ℚ × List Char :=
    match l with
    | '+' :: r => (1, r)
    | '-' :: r => (-1, r)
    | _ => (1, l)
  let ip := sl.2.takeWhile Char.isDigit
  let r1 := sl.2.dropWhile Char.isDigit
  let fr : List Char × List Char :=
    match r1 with
    | '.' :: rr => (rr.takeWhile Char.isDigit, rr.dropWhile Char.isDigit)
    | _ => ([], r1)
  if ip.isEmpty && fr.1.isEmpty then .error "ValueError"
  else
    let base : ℚ := (digitsToNat ip : ℚ) + (digitsToNat fr.1 : ℚ) / (10 : ℚ) ^ fr.1.length
    match fr.2 with
    | [] => .ok (sl.1 * base)
    | c :: rr =>
      if c == 'e' || c == 'E' then
        let er : Bool × List Char :=
          match rr with
          | '+' :: z => (true, z)
          | '-' :: z => (false, z)
          | z => (true, z)
        let ds := er.2.takeWhile Char.isDigit
        if ds.isEmpty || !(er.2.dropWhile Char.isDigit).isEmpty then .error "ValueError"
        else .ok (sl.1 * (if er.1 then base * (10 : ℚ) ^ digitsToNat ds
                          else base / (10 : ℚ) ^ digitsToNat ds))
      else .error "ValueError"

/-- Python `float(v)` on a decoded JSON value. -/
def pyFloat : JVal → Except String ℚ
  | .num q => .ok q
  | .bool b => .ok (if b then 1 else 0)
  | .str s => pyFloatOfStr s
  | _ => .error "TypeError"

/-! ## LLM-response extraction (`PriceAgent._parse_ai_response`,
`DealAgent.llm_estimate_market_value`) -/

/-- Helper for the regex `\{[^{}]*\}`: the characters up to the next brace,
provided that brace is `}` (no nested brace allowed by the class `[^{}]`). -/
def flatTail : List Char → Option (List Char)
  | [] => Option.none
  | c :: rest =>
      if c == '}' then some []
      else if c == '{' then Option.none
      else (flatTail rest).map (c :: ·)

/-- `re.search(r'\{[^{}]*\}', text)`: the leftmost `{` whose next brace is a
closing `}` (nested objects therefore defeat the match at that position and
scanning continues inside them). -/
def extractFlatSpan : List Char → Option (List Char)
  | [] => Option.none
  | c :: rest =>
      if c == '{' then
        match flatTail rest with
        | some inner => some ('{' :: (inner ++ ['}']))
        | Option.none => extractFlatSpan rest
      else extractFlatSpan rest

/-- Modelled from the spec: "extracts the first balanced `{...}` span"
(including nested objects) — from a `{`, the span through its matching
closing brace, at the leftmost position where one exists. -/
def balancedTail : List Char → ℕ → Option (List Char)
  | [], _ => Option.none
  | c :: rest, depth =>
      if c == '}' then
        match depth with
        | 0 => some ['}']
        | d+1 => (balancedTail rest d).map (c :: ·)
      else if c == '{' then (balancedTail rest (depth + 1)).map (c :: ·)
      else (balancedTail rest depth).map (c :: ·)

/-- Modelled from the spec: the first balanced `{...}` span of a text. -/
def firstBalancedSpan : List Char → Option (List Char)
  | [] => Option.none
  | c :: rest =>
      if c == '{' then
        match balancedTail rest 0 with
        | some t => some ('{' :: t)
        | Option.none => firstBalancedSpan rest
      else firstBalancedSpan rest

/-- `text.find(c)`. -/
def strFind (c : Char) : List Char → Option ℕ
  | [] => Option.none
  | x :: r => if x == c then some 0 else (strFind c r).map (· + 1)

/-- `text.rfind(c)`. -/
def strRFind (c : Char) (l : List Char) : Option ℕ :=
  (strFind c l.reverse).map (fun i => l.length - 1 - i)

/-- The heuristic JSON-block extraction of `DealAgent`
(`text.find('{')` … `text.rfind('}')`, kept when `end > start`). -/
def dealExtract (l : List Char) : Option (List Char) :=
  match strFind '{' l, strRFind '}' l with
  | some s, some e =>
      if e > s then some ((l.drop s).take (e - s + 1)) else Option.none
  | _, _ => Option.none

/-- Result of `PriceAgent._parse_ai_response`. -/
structure ParsedAI where
  estimated_price : ℚ
  confidence : ℚ
  reasoning : JVal
  key_factors : JVal
deriving Repr

/-- The ultimate fallback of `_parse_ai_response` (default 15M LKR). -/
def parsedAIDefault : ParsedAI :=
  ⟨15000000, 3/10, .str "AI response parsing failed, using default estimate",
    .arr [.str "Fallback estimate"]⟩

/-- `re.search(r'LKR\s*([\d,]+)', text)` at one position. -/
def lkrMatchAt : List Char → Option (List Char)
  | 'L' :: 'K' :: 'R' :: r =>
      let r2 := r.dropWhile isPyWs
      let g := r2.takeWhile (fun c => c.isDigit || c == ',')
      if g.isEmpty then Option.none else some g
  | _ => Option.none

/-- `re.search(r'LKR\s*([\d,]+)', text)`: leftmost match's group 1. -/
def lkrExtract : List Char → Option (List Char)
  | [] => Option.none
  | l@(_ :: rest) =>
      match lkrMatchAt l with
      | some g => some g
      | Option.none => lkrExtract rest

/-- `PriceAgent._parse_ai_response`: extract a `\{[^{}]*\}` span and decode
it; otherwise fall back to an `LKR <amount>` scrape; otherwise (or on any
raised error inside the `try`) the fixed default. -/
def parse_ai_response (t : String) : ParsedAI :=
  match extractFlatSpan t.data with
  | some span =>
      match json_loads (String.mk span) with
      | some (JVal.obj kvs) =>
          match pyFloat (jgetD kvs "estimated_price" (.num 0)),
                pyFloat (jgetD kvs "confidence" (.num (1/2))) with
          | .ok ep, .ok cf =>
              ⟨ep, max (1/10) (min (19/20) cf),
               jgetD kvs "reasoning" (.str ""), jgetD kvs "key_factors" (.arr [])⟩
          | _, _ => parsedAIDefault
      | _ => parsedAIDefault
  | Option.none =>
      match lkrExtract t.data with
      | some g =>
          match pyFloatOfStr (String.mk (g.filter (· != ','))) with
          | .ok ep =>
              ⟨ep, 3/5, .str "Extracted from AI response text",
                .arr [.str "AI analysis"]⟩
          | .error _ => parsedAIDefault
      | Option.none => parsedAIDefault

/-! ## Confidence Estimator (`PriceAgent._calculate_confidence`) -/

def requiredFeatures : List String := ["area", "beds", "baths", "year_built", "city"]

def bonusFeatures : List String := ["district", "property_type", "land_size"]

/-- `PriceAgent._calculate_confidence`: feature-completeness confidence. -/
def calculate_confidence (f : Features) : ℚ :=
  let presentCount := (requiredFeatures.filter (fun k => fpresent f k)).length
  let bonusCount := (bonusFeatures.filter (fun k => fpresent f k)).length
  let baseConfidence : ℚ :=
    1/2 + ((presentCount : ℚ) / (requiredFeatures.length : ℚ)) * (2/5)
  let bonusConfidence : ℚ := min (1/10) ((bonusCount : ℚ) * (1/50))
  min (19/20) (baseConfidence + bonusConfidence)

/-! ## Random-oracle model of Python's `random` module -/

/-- Oracle for the `random` module: `ints` feeds `randint`/`choice`, `unif`
feeds `uniform`.  Indices are an arbitrary enumeration of the successive
draws of one call. -/
structure PyRng where
  ints : ℕ → ℕ
  unif : ℕ → ℚ

/-- `random.uniform(lo, hi)`: an arbitrary value of `[lo, hi]`. -/
def PyRng.uniform (g : PyRng) (lo hi : ℚ) (idx : ℕ) : ℚ :=
  lo + (hi - lo) * pymod1 (g.unif idx)

/-- `random.randint(a, b)`: an arbitrary value of `{a, …, b}`. -/
def PyRng.randint (g : PyRng) (a b : ℕ) (idx : ℕ) : ℕ :=
  a + g.ints idx % (b - a + 1)

/-- `random.choice(l)` on a non-empty list. -/
def PyRng.choice (g : PyRng) (l : List String) (idx : ℕ) (d : String) : String :=
  l.getD (g.ints idx % l.length) d

/-- Oracle for `math.cos`, `math.sin` and `math.radians` (transcendental
float functions; only their results' plumbing is observable). -/
structure TrigOracle where
  cosF : ℚ → ℚ
  sinF : ℚ → ℚ
  radF : ℚ → ℚ

/-- The IEEE-754 double value of `math.pi`, as an exact rational. -/
def piFloat : ℚ := 884279719003555 / 281474976710656

/-! ## Price Estimation Engine (`app/agents/price_agent.py`) -/

/-- A mock comparable built by `PriceAgent._generate_comps`. -/
structure Comp where
  id : String
  price : ℚ
  price_lkr : String
  area : ℚ
  beds : FVal
  baths : FVal
  city : FVal
  property_type : FVal
  distance : ℚ
  sold_date : String
  price_per_sqft : ℚ
deriving Repr

/-- A retrieved comparable built by `PriceAgent._get_comparable_properties`. -/
structure RComp where
  id : String
  address : String
  price_lkr : ℤ
  price : ℚ
  area_sqft : ℕ
  area : ℚ
  beds : ℕ
  baths : ℕ
  year_built : ℕ
  property_type : String
  lat : ℚ
  lon : ℚ
  distance_km : ℚ
  price_per_sqft : ℚ
  sold_date : String
  city : String
deriving Repr

/-- An entry of the `comps` list of a price result (the two call paths
produce dictionaries of different shapes). -/
inductive CompEntry where
  | mock (c : Comp)
  | retrieved (c : RComp)
deriving Repr

/-- One mock comparable of `_generate_comps` (iteration `i`), given the
already-coerced numeric area `a`. -/
def mkMockComp (g : PyRng) (city ptype beds baths : FVal) (estimatedPrice a : ℚ)
    (i : ℕ) : Comp :=
  let compPrice := estimatedPrice * g.uniform (4/5) (6/5) (3*i)
  let compArea := a * g.uniform (9/10) (11/10) (3*i+1)
  { id := "comp_" ++ toString (i+1),
    price := roundTo 2 compPrice,
    price_lkr := "LKR " ++ fmtComma (roundHalfEven compPrice),
    area := roundTo 2 compArea,
    beds := beds,
    baths := baths,
    city := city,
    property_type := ptype,
    distance := roundTo 1 (g.uniform (1/10) 2 (3*i+2)),
    sold_date := "2024-01-15",
    price_per_sqft := if compArea > 0 then roundTo 2 (compPrice / compArea) else 0 }

/-- `PriceAgent._generate_comps`: a fixed `range(3)` loop of mock
comparables.  Each iteration multiplies `features.get('area', 1000)` by a
uniform draw; that coercion raises `TypeError` on a non-numeric area.  It is
a deterministic per-iteration repeat of the same lookup, so it is coerced
once here (observationally equivalent: the loop has no other effect before
the first raise). -/
def generate_comps (g : PyRng) (f : Features) (estimatedPrice : ℚ) :
    Except String (List Comp) :=
  match (fgetD f "area" (.num 1000)).asNum with
  | .error e => .error e
  | .ok a =>
    let city := fgetD f "city" (.str "Unknown")
    let ptype := fgetD f "property_type" (.str "House")
    let beds := fgetD f "beds" (.num 2)
    let baths := fgetD f "baths" (.num 2)
    .ok [mkMockComp g city ptype beds baths estimatedPrice a 0,
         mkMockComp g city ptype beds baths estimatedPrice a 1,
         mkMockComp g city ptype beds baths estimatedPrice a 2]

def citiesNearby : List String :=
  ["Colombo", "Dehiwala", "Moratuwa", "Nugegoda", "Rajagiriya", "Battaramulla", "Kotte"]

def propertyTypes : List String := ["House", "Apartment", "Villa", "Townhouse"]

def roadNames : List String :=
  ["Galle", "Duplication", "Baseline", "High Level", "Bauddhaloka"]

/-- Price-per-sqft uniform range by property type
(`_get_comparable_properties`). -/
def ppsRange (pt : String) : ℚ × ℚ :=
  if pt == "House" then (25000, 55000)
  else if pt == "Apartment" then (20000, 45000)
  else if pt == "Villa" then (35000, 65000)
  else (22000, 48000)

/-- `f"{n:02d}"`. -/
def pad2 (n : ℕ) : String :=
  if n < 10 then "0" ++ toString n else toString n

/-- One retrieved comparable of `_get_comparable_properties`
(iteration `i`). -/
def mkRComp (g : PyRng) (tr : TrigOracle) (lat lon distanceKm : ℚ) (i : ℕ) : RComp :=
  let angle := g.uniform 0 (2 * piFloat) (16*i)
  let distance := g.uniform (1/10) distanceKm (16*i+1)
  let latOff := (distance * tr.cosF angle) / 111
  let lonOff := (distance * tr.sinF angle) / (111 * tr.cosF (tr.radF lat))
  let area := g.randint 800 2500 (16*i)
  let pt := g.choice propertyTypes (16*i+4) "House"
  let pr := ppsRange pt
  let pps := g.uniform pr.1 pr.2 (16*i+2)
  let priceLkr := pyint ((area : ℚ) * pps)
  { id := "comp_" ++ toString (i+1),
    address := toString (g.randint 1 999 (16*i+5)) ++ " " ++
      g.choice roadNames (16*i+6) "Galle" ++ " Road, " ++
      g.choice citiesNearby (16*i+7) "Colombo",
    price_lkr := priceLkr,
    price := (priceLkr : ℚ),
    area_sqft := area,
    area := (area : ℚ),
    beds := g.randint 2 5 (16*i+1),
    baths := g.randint 1 4 (16*i+2),
    year_built := g.randint 2000 2024 (16*i+3),
    property_type := pt,
    lat := roundTo 6 (lat + latOff),
    lon := roundTo 6 (lon + lonOff),
    distance_km := roundTo 2 distance,
    price_per_sqft := roundTo 2 ((priceLkr : ℚ) / (area : ℚ)),
    sold_date := "2024-" ++ pad2 (g.randint 1 12 (16*i+8)) ++ "-" ++
      pad2 (g.randint 1 28 (16*i+9)),
    city := g.choice citiesNearby (16*i+10) "Colombo" }

/-- `PriceAgent._get_comparable_properties`: `random.randint(3, 5)` mock
comparables around the coordinates (the seeding by rounded coordinates is
subsumed by the RNG oracle). -/
def get_comparable_properties (g : PyRng) (tr : TrigOracle) (lat lon : ℚ)
    (distanceKm : ℚ) : List RComp :=
  let _seedValue : ℤ := pyint ((lat + lon) * 10000) % 1000
  let numComps := g.randint 3 5 999
  (List.range numComps).map (mkRComp g tr lat lon distanceKm)

/-- Price-result dictionary of `PriceAgent.estimate_price`.  `Option`
fields model keys that are absent on some paths (the exception path omits
`price_per_sqft`, `reasoning` and `key_factors`; only it carries
`error`). -/
structure PriceResult where
  estimated_price : ℚ
  confidence : ℚ
  features_used : List String
  comps : List CompEntry
  currency : String
  price_per_sqft : Option ℚ
  reasoning : Option JVal
  key_factors : Option JVal
  error : Option String
deriving Repr

/-- `PriceAgent._format_property_details`: the produced prompt text goes
only to the LLM oracle, so just its exception behaviour is modelled — the
comparisons `features['land_size'] > 0` and `features['asking_price'] > 0`
raise `TypeError` on non-numeric present values. -/
def format_property_details (f : Features) : Except String Unit :=
  match (match fget f "land_size" with
         | some v => (pyGtNum v 0).map (fun _ => ())
         | Option.none => .ok ()) with
  | .error e => .error e
  | .ok _ =>
    match fget f "asking_price" with
    | some v => (pyGtNum v 0).map (fun _ => ())
    | Option.none => .ok ()

/-- City/type base price-per-sqft ranges of `_fallback_estimate_price`
(`base_estimates.get(city, default).get(ptype, city_data.get('House', …))`). -/
def fallbackRange (city ptype : FVal) : ℚ × ℚ :=
  if city == .str "Colombo" then
    (if ptype == .str "House" then (30000, 60000)
     else if ptype == .str "Apartment" then (25000, 45000)
     else (30000, 60000))
  else if city == .str "Kandy" then
    (if ptype == .str "House" then (20000, 40000)
     else if ptype == .str "Apartment" then (18000, 35000)
     else (20000, 40000))
  else if city == .str "Galle" then
    (if ptype == .str "House" then (18000, 35000)
     else if ptype == .str "Apartment" then (15000, 30000)
     else (18000, 35000))
  else
    (if ptype == .str "House" then (15000, 30000)
     else if ptype == .str "Apartment" then (12000, 25000)
     else (15000, 30000))

/-- The average price-per-sqft of `_fallback_estimate_price`: city/type
range midpoint, adjusted by the coordinate-derived ±10% location factor
when both coordinates are present (`lat is not None and lon is not None`). -/
def fallbackAvg (f : Features) : Except String ℚ :=
  let city := fgetD f "city" (.str "Unknown")
  let ptype := fgetD f "property_type" (.str "House")
  let lat := fgetD f "lat" .none
  let lon := fgetD f "lon" .none
  let pr := fallbackRange city ptype
  let avg0 := (pr.1 + pr.2) / 2
  if lat != FVal.none && lon != FVal.none then
    match pyAdd lat lon with
    | .error e => .error e
    | .ok s =>
      match pyMod1 s with
      | .error e => .error e
      | .ok m => .ok (avg0 * (1 + (m - 1/2) * (1/5)))
  else .ok avg0

/-- `PriceAgent._fallback_estimate_price` (heuristic path): area × average
price-per-sqft with a coordinate-derived ±10% location factor. -/
def fallback_estimate (g : PyRng) (f : Features) : Except String PriceResult :=
  match fallbackAvg f with
  | .error e => .error e
  | .ok avg =>
    match (fgetD f "area" (.num 1000)).asNum with
    | .error e => .error e
    | .ok a =>
      let estimatedPrice := a * avg
      match generate_comps g f estimatedPrice with
      | .error e => .error e
      | .ok comps =>
        if a == 0 then .error "ZeroDivisionError"
        else
          .ok { estimated_price := roundTo 2 estimatedPrice,
                confidence := calculate_confidence f,
                features_used := f.map (·.1),
                comps := comps.map CompEntry.mock,
                currency := "LKR",
                price_per_sqft := some (roundTo 2 (estimatedPrice / a)),
                reasoning := some (.str "Fallback estimation based on area and location"),
                key_factors := some (.arr [.str "Area", .str "Location",
                  .str "Property Type", .str "Geographic Coordinates"]),
                error := Option.none }

/-- Oracle bundle for one `PriceAgent.estimate_price` call. -/
structure PriceOracle where
  hasModel : Bool
  resp : Except String String
  g : PyRng
  tr : TrigOracle

/-- Comparable retrieval of `_ai_estimate_price`: performed only when both
coordinates are present; the seed arithmetic of
`_get_comparable_properties` raises on non-numeric coordinates. -/
def aiRetrieve (o : PriceOracle) (f : Features) : Except String (List RComp) :=
  let lat := fgetD f "lat" .none
  let lon := fgetD f "lon" .none
  if lat != FVal.none && lon != FVal.none then
    match lat.asNum, lon.asNum with
    | .ok la, .ok lo => .ok (get_comparable_properties o.g o.tr la lo 5)
    | _, _ => .error "TypeError"
  else .ok []

/-- Comps selection of `_ai_estimate_price`: the retrieved comparables when
any, else freshly generated mock comps. -/
def aiComps (o : PriceOracle) (f : Features) (comparable : List RComp)
    (aiPrice : ℚ) : Except String (List CompEntry) :=
  if !comparable.isEmpty then .ok (comparable.map CompEntry.retrieved)
  else (generate_comps o.g f aiPrice).map (·.map CompEntry.mock)

/-- The `try:` body of `PriceAgent._ai_estimate_price` (LLM path). -/
def aiBody (o : PriceOracle) (f : Features) : Except String PriceResult :=
  match format_property_details f with
  | .error e => .error e
  | .ok _ =>
    match aiRetrieve o f with
    | .error e => .error e
    | .ok comparable =>
      match o.resp with
      | .error e => .error e
      | .ok text =>
        let ai := parse_ai_response text
        match aiComps o f comparable ai.estimated_price with
        | .error e => .error e
        | .ok comps =>
          match (fgetD f "area" (.num 1000)).asNum with
          | .error e => .error e
          | .ok a =>
            if a == 0 then .error "ZeroDivisionError"
            else
              .ok { estimated_price := ai.estimated_price,
                    confidence := ai.confidence,
                    features_used := f.map (·.1),
                    comps := comps,
                    currency := "LKR",
                    price_per_sqft := some (roundTo 2 (ai.estimated_price / a)),
                    reasoning := some ai.reasoning,
                    key_factors := some ai.key_factors,
                    error := Option.none }

/-- `PriceAgent._ai_estimate_price`: the LLM path with its `except` falling
back to the heuristic path. -/
def ai_estimate (o : PriceOracle) (f : Features) : Except String PriceResult :=
  match aiBody o f with
  | .ok r => .ok r
  | .error _ => fallback_estimate o.g f

/-- The exception-path dictionary of `PriceAgent.estimate_price`. -/
def priceErrorResult (e : String) : PriceResult :=
  { estimated_price := 0, confidence := 1/10, features_used := [], comps := [],
    currency := "LKR", price_per_sqft := Option.none, reasoning := Option.none,
    key_factors := Option.none, error := some e }

/-- The `try:` body of `PriceAgent.estimate_price`: LLM path when a model is
configured, heuristic path otherwise. -/
def priceBody (o : PriceOracle) (f : Features) : Except String PriceResult :=
  if o.hasModel then ai_estimate o f else fallback_estimate o.g f

/-- `PriceAgent.estimate_price`: dispatch plus the top-level `except`
returning the zero-price error dictionary. -/
def estimate_price (o : PriceOracle) (f : Features) : PriceResult :=
  match priceBody o f with
  | .ok r => r
  | .error e => priceErrorResult e

/-! ## A small regex engine (Python `re` semantics)

`SecurityAgent` compiles alternations of word-bounded literals and PII
patterns with `re.IGNORECASE` and applies them via `re.sub`.  The engine
below implements the exact constructs those patterns use: character
classes, concatenation, ordered alternation, greedy counted repetition
with backtracking, and the word-boundary assertion `\b` — with Python's
leftmost / first-alternative / greedy-backtracking match order. -/

/-- Regex abstract syntax (just the constructs used by the agent). -/
inductive RE where
  | eps
  | cls (p : Char → Bool)
  | seq (a b : RE)
  | alt (a b : RE)
  | rep (r : RE) (lo : ℕ) (hi : Option ℕ)
  | wb

/-- Python `\w` (ASCII part; the agent's inputs of interest are ASCII). -/
def isWordChar (c : Char) : Bool := c.isAlphanum || c == '_'

/-- `\b`: exactly one of the neighbouring characters is a word character. -/
def hasWb (t : List Char) (i : ℕ) : Bool :=
  let before := decide (i > 0) && isWordChar (t.getD (i - 1) ' ')
  let after := decide (i < t.length) && isWordChar (t.getD i ' ')
  before != after

/-- Backtracking matcher in continuation-passing style: tries the
possibilities in Python's order and returns the first end position accepted
by the continuation `k`.  Greedy repetition first tries to consume one more
occurrence.  The fuel strictly dominates the recursion depth for the
patterns used here (each repeated element consumes at least one
character). -/
def reMatch : ℕ → List Char → RE → ℕ → (ℕ → Option ℕ) → Option ℕ
  | 0, _, _, _, _ => Option.none
  | _ + 1, _, RE.eps, i, k => k i
  | _ + 1, t, RE.cls p, i, k =>
      match t.get? i with
      | some c => if p c then k (i + 1) else Option.none
      | Option.none => Option.none
  | fuel + 1, t, RE.seq a b, i, k =>
      reMatch fuel t a i (fun j => reMatch fuel t b j k)
  | fuel + 1, t, RE.alt a b, i, k =>
      match reMatch fuel t a i k with
      | some r => some r
      | Option.none => reMatch fuel t b i k
  | _ + 1, t, RE.wb, i, k => if hasWb t i then k i else Option.none
  | fuel + 1, t, RE.rep r lo hi, i, k =>
      match lo, hi with
      | 0, some 0 => k i
      | 0, _ =>
          match reMatch fuel t r i (fun j =>
              if j == i then Option.none
              else reMatch fuel t (RE.rep r 0 (hi.map (· - 1))) j k) with
          | some res => some res
          | Option.none => k i
      | lo' + 1, _ =>
          reMatch fuel t r i (fun j =>
            if j == i then Option.none
            else reMatch fuel t (RE.rep r lo' (hi.map (· - 1))) j k)

/-- Fuel that dominates the engine's recursion depth on the agent's
patterns. -/
def reFuel (t : List Char) : ℕ := (t.length + 64) * 64

/-- Anchored match attempt at position `i`: end position of the first
match in backtracking order. -/
def reMatchAt (t : List Char) (re : RE) (i : ℕ) : Option ℕ :=
  reMatch (reFuel t) t re i some

/-- `re.sub(pattern, repl, text)`: scan left to right, replacing
non-overlapping matches (all the agent's patterns match at least one
character). -/
def reSubGo : ℕ → RE → List Char → List Char → ℕ → List Char → List Char
  | 0, _, _, t, i, acc => acc ++ t.drop i
  | fuel + 1, re, repl, t, i, acc =>
      if i ≥ t.length then acc ++ t.drop i
      else
        match reMatchAt t re i with
        | some e =>
            if e > i then reSubGo fuel re repl t e (acc ++ repl)
            else reSubGo fuel re repl t (i + 1) (acc ++ [t.getD i ' '])
        | Option.none => reSubGo fuel re repl t (i + 1) (acc ++ [t.getD i ' '])

def reSub (re : RE) (repl : List Char) (t : List Char) : List Char :=
  reSubGo (t.length + 1) re repl t 0 []

/-- Case-insensitive literal (the patterns are compiled with
`re.IGNORECASE`). -/
def litCI (s : String) : RE :=
  s.data.foldr (fun c acc => RE.seq (RE.cls (fun x => x.toLower == c.toLower)) acc)
    RE.eps

/-- Ordered alternation of a non-empty list (empty ⇒ never matches). -/
def altList (l : List RE) : RE :=
  match l with
  | [] => RE.cls (fun _ => false)
  | [r] => r
  | r :: rest => RE.alt r (altList rest)

/-- `\b(w1|w2|…)\b` for a literal word group. -/
def wordGroup (ws : List String) : RE :=
  RE.seq RE.wb (RE.seq (altList (ws.map litCI)) RE.wb)

/-- The toxicity pattern of `SecurityAgent`
(`\b(kill|hate|attack|destroy|harm)\b|\b(racist|sexist|discriminatory)\b|\b(illegal|unlawful|criminal)\b`). -/
def toxicityRE : RE :=
  altList [wordGroup ["kill", "hate", "attack", "destroy", "harm"],
           wordGroup ["racist", "sexist", "discriminatory"],
           wordGroup ["illegal", "unlawful", "criminal"]]

def digitRE : RE := RE.cls Char.isDigit

def repN (r : RE) (n : ℕ) : RE := RE.rep r n (some n)

/-- `\b\d{3}-\d{2}-\d{4}\b` (SSN). -/
def ssnRE : RE :=
  RE.seq RE.wb (RE.seq (repN digitRE 3) (RE.seq (RE.cls (· == '-'))
    (RE.seq (repN digitRE 2) (RE.seq (RE.cls (· == '-'))
      (RE.seq (repN digitRE 4) RE.wb)))))

/-- `\b\d{10,11}\b` (phone numbers). -/
def phoneRE : RE :=
  RE.seq RE.wb (RE.seq (RE.rep digitRE 10 (some 11)) RE.wb)

def emailLocalChar (c : Char) : Bool :=
  c.isAlphanum || c == '.' || c == '_' || c == '%' || c == '+' || c == '-'

def emailDomainChar (c : Char) : Bool :=
  c.isAlphanum || c == '.' || c == '-'

def emailTldChar (c : Char) : Bool :=
  c.isAlpha || c == '|'

/-- `[A-Za-z0-9._%+-]+@[A-Za-z0-9.-]+\.[A-Z|a-z]{2,}` (email). -/
def emailRE : RE :=
  RE.seq (RE.rep (RE.cls emailLocalChar) 1 Option.none)
    (RE.seq (RE.cls (· == '@'))
      (RE.seq (RE.rep (RE.cls emailDomainChar) 1 Option.none)
        (RE.seq (RE.cls (· == '.'))
          (RE.rep (RE.cls emailTldChar) 2 Option.none))))

def addrWsChar (c : Char) : Bool := isPyWs c

/-- `\b\d{1,5}\s+[A-Za-z\s]+(?:Street|St|Avenue|Ave|Road|Rd|Boulevard|Blvd|Lane|Ln|Drive|Dr)\b`
(street address). -/
def addressRE : RE :=
  RE.seq RE.wb
    (RE.seq (RE.rep digitRE 1 (some 5))
      (RE.seq (RE.rep (RE.cls addrWsChar) 1 Option.none)
        (RE.seq (RE.rep (RE.cls (fun c => c.isAlpha || isPyWs c)) 1 Option.none)
          (RE.seq (altList ([ "Street", "St", "Avenue", "Ave", "Road", "Rd",
              "Boulevard", "Blvd", "Lane", "Ln", "Drive", "Dr"].map litCI))
            RE.wb))))

/-- The PII pattern of `SecurityAgent` (`'|'.join(pii_patterns)`). -/
def piiRE : RE := altList [ssnRE, phoneRE, emailRE, addressRE]

/-! ## Output Normalizer / Security Agent (`app/agents/security_agent.py`) -/

/-- `html.escape(text)` (with the default `quote=True`). -/
def htmlEscapeChar (c : Char) : List Char :=
  if c == '&' then "&amp;".data
  else if c == '<' then "&lt;".data
  else if c == '>' then "&gt;".data
  else if c == '"' then "&quot;".data
  else if c == '\'' then "&#x27;".data
  else [c]

def htmlEscape (l : List Char) : List Char :=
  (l.map htmlEscapeChar).flatten

/-- Worker for whitespace-run collapsing: `inWs` records whether the
previous character belonged to a (already emitted) whitespace run. -/
def collapseWsGo : Bool → List Char → List Char
  | _, [] => []
  | inWs, c :: rest =>
      if isPyWs c then
        if inWs then collapseWsGo true rest
        else ' ' :: collapseWsGo true rest
      else c :: collapseWsGo false rest

/-- `re.sub(r'\s+', ' ', s)`: collapse every whitespace run to one space. -/
def collapseWsRuns (l : List Char) : List Char := collapseWsGo false l

/-- `s.strip()`. -/
def stripWs (l : List Char) : List Char :=
  ((l.dropWhile isPyWs).reverse.dropWhile isPyWs).reverse

/-- `SecurityAgent.sanitize_input`: markup escaping, toxicity redaction,
PII redaction, whitespace collapsing, truncation at 10,000 characters.
(The `except` branch of the Python code is unreachable: no step raises.) -/
def sanitize_input (s : String) : String :=
  if s == "" then ""
  else
    let a := htmlEscape s.data
    let b := reSub toxicityRE "[REDACTED]".data a
    let c := reSub piiRE "[PII_REDACTED]".data b
    let d := stripWs (collapseWsRuns c)
    let e := if d.length > 10000 then d.take 10000 ++ "... [TRUNCATED]".data else d
    String.mk e

/-- Python `str.lower()` (ASCII). -/
def lowerStr (s : String) : String := String.mk (s.data.map Char.toLower)

/-- Worker for Python `str.title()`: uppercase a letter starting a run of
letters, lowercase the rest. -/
def titleGo : Bool → List Char → List Char
  | _, [] => []
  | prevAlpha, c :: rest =>
      if c.isAlpha then
        (if prevAlpha then c.toLower else c.toUpper) :: titleGo true rest
      else c :: titleGo false rest

def pyTitle (s : String) : String := String.mk (titleGo false s.data)

/-- Python `float(value)` on a feature value (`float` of a numeric string
parses it; of `None` raises). -/
def pyFloatOfFVal : FVal → Except String ℚ
  | .num q => .ok q
  | .str s => pyFloatOfStr s
  | .none => .error "TypeError"

/-- The Sri-Lanka city whitelist of `SecurityAgent` (lower-case keys). -/
def sriLankaCities : List String :=
  ["colombo", "dehiwala", "mount lavinia", "moratuwa", "kesbewa", "maharagama",
   "kotte", "kaduwela", "homagama", "pannipitiya", "padukka", "battaramulla",
   "ragama", "ja-ela", "negombo", "katunayake", "seeduwa", "wattala",
   "kelaniya", "kiribathgoda", "pitipana",
   "kandy", "gampola", "nawalapitiya", "katugastota", "peradeniya", "matale",
   "dambulla", "nuwara eliya", "hatton", "talawakele", "bandarawela", "haputale",
   "galle", "matara", "weligama", "hambantota", "tangalle", "ambalangoda",
   "hikkaduwa", "hakmana", "tissamaharama",
   "jaffna", "kachchativu", "mannar", "kilinochchi", "vavuniya", "point pedro",
   "chavakachcheri", "mulaitivu",
   "trincomalee", "batticaloa", "kalmunai", "ampara", "kattankudy", "eravur",
   "valachchenai", "kalkudah", "sainthamaruthu",
   "kurunegala", "kuliyapitiya", "narammala", "pannala", "puttalam", "chilaw",
   "wennappuwa", "anamaduwa", "maho",
   "anuradhapura", "polonnaruwa", "hingurakgoda", "medirigiriya",
   "badulla", "monaragala", "bibile", "welimada",
   "ratnapura", "balangoda", "kegalle", "mawanella"]

/-- Result of `SecurityAgent.validate_query_features`. -/
structure ValidationResult where
  is_valid : Bool
  sanitized_features : Features
  errors : List String
deriving Repr

def numericFields : List String :=
  ["lat", "lon", "beds", "baths", "area", "year_built", "asking_price"]

/-- Bounds checks of `validate_query_features` for one numeric field. -/
def checkBounds (field : String) (v : ℚ) : List String :=
  if field == "lat" || field == "lon" then
    if decide (-90 ≤ v) && decide (v ≤ 90) then []
    else ["Invalid " ++ field ++ ": must be between -90 and 90"]
  else if field == "beds" || field == "baths" then
    if decide (0 ≤ v) && decide (v ≤ 20) then []
    else ["Invalid " ++ field ++ ": must be between 0 and 20"]
  else if field == "area" then
    if decide (0 < v) && decide (v ≤ 100000) then []
    else ["Invalid " ++ field ++ ": must be between 0 and 100,000"]
  else if field == "year_built" then
    if decide (1800 ≤ v) && decide (v ≤ 2030) then []
    else ["Invalid " ++ field ++ ": must be between 1800 and 2030"]
  else if field == "asking_price" then
    if decide (0 < v) then []
    else ["Invalid " ++ field ++ ": must be greater than 0"]
  else []

/-- One round of the numeric-field loop: the errors it appends and the
`sanitized` binding it adds (a bound violation still stores the value,
exactly as the source does). -/
def numericStep (f : Features) (field : String) : List String × Features :=
  match fget f field with
  | some v =>
      if v != FVal.none then
        match pyFloatOfFVal v with
        | .ok q => (checkBounds field q, [(field, FVal.num q)])
        | .error _ => (["Invalid " ++ field ++ ": must be a number"], [])
      else ([], [])
  | Option.none => ([], [])

/-- `SecurityAgent.validate_query_features`: required-field checks, city
whitelist validation (storing the title-cased sanitized city), numeric
coercion and bounds.  (The surrounding `try/except` is unreachable: no step
raises.) -/
def validate_query_features (f : Features) : ValidationResult :=
  let reqErrs :=
    (if fpresent f "city" then [] else ["Missing required field: city"]) ++
    (if fpresent f "asking_price" then [] else ["Missing required field: asking_price"])
  let city := fgetD f "city" .none
  let cityRes : List String × Features :=
    if city.truthy then
      let cityClean := String.mk (stripWs (sanitize_input city.pystr).data)
      if sriLankaCities.contains (lowerStr cityClean) then
        ([], [("city", FVal.str (pyTitle cityClean))])
      else (["Invalid city: not recognized as a Sri Lankan city"], [])
    else ([], [])
  let numRes := numericFields.map (numericStep f)
  let errors := reqErrs ++ cityRes.1 ++ (numRes.map (·.1)).flatten
  let sanitized := cityRes.2 ++ (numRes.map (·.2)).flatten
  ⟨errors.isEmpty, sanitized, errors⟩

/-! ## URL safety and provenance sanitization (`SecurityAgent`) -/

/-- `sub in s` (substring containment). -/
def containsSub (sub : List Char) : List Char → Bool
  | [] => sub.isEmpty
  | l@(_ :: rest) => sub.isPrefixOf l || containsSub sub rest

/-- `url.split('://', 1)`: the text before the first `://` and the text
after it (`none` when the separator does not occur). -/
def splitScheme : List Char → Option (List Char × List Char)
  | [] => Option.none
  | l@(c :: rest) =>
      if "://".data.isPrefixOf l then some ([], l.drop 3)
      else (splitScheme rest).map (fun p => (c :: p.1, p.2))

def safeSchemes : List String := ["http", "https"]

def safeDomains : List String := ["example.com", "trusted-domain.com"]

/-- The domain part examined by `_is_safe_url`
(`rest.split('/')[0].split(':')[0]`). -/
def domainOf (rest : List Char) : List Char :=
  (rest.takeWhile (· != '/')).takeWhile (· != ':')

/-- `SecurityAgent._is_safe_url`: empty is unsafe; a `://` URL must have an
http(s) scheme and a domain containing an allow-listed domain; scheme-less
relative paths are safe by convention. -/
def is_safe_url (url : String) : Bool :=
  if url == "" then false
  else if containsSub "://".data url.data then
    match splitScheme url.data with
    | some (scheme, rest) =>
        if !(safeSchemes.contains (lowerStr (String.mk scheme))) then false
        else safeDomains.any (fun d => containsSub d.data (domainOf rest))
    | Option.none => false
  else true

/-- A provenance entry as produced by `LocationAgent._generate_provenance`. -/
structure Prov where
  doc_id : String
  source : String
  snippet : String
  link : String
  confidence : ℚ
deriving DecidableEq, Repr

/-- A provenance entry after `SecurityAgent._sanitize_provenance`
(`link` becomes `None` when unsafe). -/
structure SProv where
  doc_id : String
  snippet : String
  link : Option String
deriving DecidableEq, Repr

/-- `SecurityAgent._sanitize_provenance` on a list of well-formed entries. -/
def sanitize_provenance (l : List Prov) : List SProv :=
  l.map (fun p =>
    ⟨p.doc_id, sanitize_input p.snippet,
     if is_safe_url p.link then some p.link else Option.none⟩)

/-! ## Location Scoring Engine (`app/agents/location_agent.py`) -/

/-- `city_scores.get(city, 0.5)` of `_calculate_location_score`. -/
def cityScore (city : FVal) : ℚ :=
  match city with
  | .str s =>
    if s == "Colombo" then 95/100
    else if s == "Kandy" then 90/100
    else if s == "Galle" then 85/100
    else if s == "Jaffna" then 80/100
    else if s == "Negombo" then 85/100
    else if s == "Matara" then 80/100
    else if s == "Anuradhapura" then 75/100
    else if s == "Polonnaruwa" then 70/100
    else if s == "Trincomalee" then 80/100
    else if s == "Batticaloa" then 75/100
    else if s == "Ratnapura" then 70/100
    else if s == "Kurunegala" then 75/100
    else if s == "Badulla" then 70/100
    else if s == "Monaragala" then 65/100
    else if s == "Vavuniya" then 70/100
    else if s == "Mullaitivu" then 65/100
    else if s == "Kilinochchi" then 65/100
    else if s == "Ampara" then 70/100
    else if s == "Puttalam" then 75/100
    else if s == "Hambantota" then 80/100
    else if s == "Kalutara" then 80/100
    else if s == "Gampaha" then 85/100
    else if s == "Nuwara Eliya" then 80/100
    else if s == "Kegalle" then 75/100
    else if s == "Unknown" then 50/100
    else 1/2
  | _ => 1/2

def colomboDistrictScores : List (String × ℚ) :=
  [("Colombo 1", 98/100), ("Colombo 2", 97/100), ("Colombo 3", 96/100),
   ("Colombo 4", 95/100), ("Colombo 5", 94/100), ("Colombo 6", 93/100),
   ("Colombo 7", 97/100), ("Colombo 8", 92/100), ("Colombo 9", 91/100),
   ("Colombo 10", 90/100), ("Colombo 11", 89/100), ("Colombo 12", 88/100),
   ("Colombo 13", 87/100), ("Colombo 14", 86/100), ("Colombo 15", 85/100)]

def kandyDistrictScores : List (String × ℚ) :=
  [("Peradeniya", 92/100), ("Katugastota", 88/100), ("Mahaiyawa", 85/100),
   ("Asgiriya", 90/100), ("Malwatte", 89/100)]

def galleDistrictScores : List (String × ℚ) :=
  [("Galle Fort", 95/100), ("Unawatuna", 90/100), ("Hikkaduwa", 88/100),
   ("Mirissa", 92/100), ("Weligama", 89/100)]

/-- `if district in table: score = table[district]` (string keys, so only a
string district can hit). -/
def distListScore (l : List (String × ℚ)) (district : FVal) (s : ℚ) : ℚ :=
  match district with
  | .str d => match l.lookup d with | some v => v | Option.none => s
  | _ => s

/-- `LocationAgent._calculate_location_score`: city/district table score
plus coordinate-proximity bonuses, ±0.05 jitter `j`, clamped to `[0, 1]`.
`sqrtF` is the `math.sqrt` oracle. -/
def calculate_location_score (lat lon city district : FVal)
    (sqrtF : ℚ → ℚ) (j : ℚ) : Except String ℚ :=
  let score0 := if city.truthy then cityScore city else 1/2
  let score1 := if city == FVal.str "Colombo" && district.truthy then
      distListScore colomboDistrictScores district score0 else score0
  let score2 := if city == FVal.str "Kandy" && district.truthy then
      distListScore kandyDistrictScores district score1 else score1
  let score3 := if city == FVal.str "Galle" && district.truthy then
      distListScore galleDistrictScores district score2 else score2
  match (if lat.truthy && lon.truthy then
          match lat.asNum, lon.asNum with
          | .ok la, .ok lo =>
              let dCol := sqrtF ((la - 69271/10000)^2 + (lo - 798612/10000)^2)
              let add1 : ℚ := if dCol < 1/10 then 1/20
                else if dCol < 1/5 then 3/100 else 0
              let dKan := sqrtF ((la - 72906/10000)^2 + (lo - 806337/10000)^2)
              let add2 : ℚ := if dKan < 1/10 then 3/100 else 0
              let dGal := sqrtF ((la - 60535/10000)^2 + (lo - 802210/10000)^2)
              let add3 : ℚ := if dGal < 1/10 then 1/50 else 0
              (.ok (score3 + add1 + add2 + add3) : Except String ℚ)
          | _, _ => (.error "TypeError" : Except String ℚ)
         else .ok score3) with
  | .error e => .error e
  | .ok s4 => .ok (max 0 (min 1 (s4 + j)))

/-- The `city_bullets` table of `_generate_location_bullets`. -/
def cityBullets (city : FVal) : List String :=
  match city with
  | .str s =>
    if s == "Colombo" then
      ["Capital city with excellent infrastructure",
       "Close to Bandaranaike International Airport",
       "Major business and financial hub",
       "Good public transportation (buses, trains)",
       "International schools and universities",
       "Modern shopping malls and restaurants",
       "Healthcare facilities and hospitals",
       "Port city with trade opportunities"]
    else if s == "Kandy" then
      ["Cultural and historical significance",
       "Pleasant climate and scenic beauty",
       "Major tourist destination",
       "Peradeniya University area",
       "Temple of the Tooth Relic",
       "Botanical Gardens",
       "Tea plantations nearby",
       "Cooler climate than coastal areas"]
    else if s == "Galle" then
      ["Coastal city with beautiful beaches",
       "UNESCO World Heritage site (Galle Fort)",
       "Tourism and hospitality focus",
       "Relaxed lifestyle",
       "Historical Portuguese and Dutch influence",
       "Good for retirement and tourism",
       "Fishing industry",
       "Close to other beach destinations"]
    else if s == "Jaffna" then
      ["Northern cultural center",
       "Growing economic opportunities",
       "Unique cultural heritage",
       "Development potential",
       "University of Jaffna",
       "Historical significance",
       "Agricultural land",
       "Peaceful environment"]
    else if s == "Negombo" then
      ["Beach city near airport",
       "Tourist-friendly area",
       "Fishing industry",
       "Good for expats and tourists",
       "Historical churches",
       "Lagoon and beach activities",
       "Growing real estate market",
       "Easy access to Colombo"]
    else if s == "Matara" then
      ["Southern coastal city",
       "Beautiful beaches",
       "Historical significance",
       "University of Ruhuna",
       "Growing development",
       "Good investment potential",
       "Tourist attractions",
       "Peaceful lifestyle"]
    else if s == "Anuradhapura" then
      ["Ancient capital of Sri Lanka",
       "UNESCO World Heritage site",
       "Buddhist pilgrimage site",
       "Historical significance",
       "Agricultural land",
       "Growing tourism",
       "Cultural heritage",
       "Investment potential"]
    else
      ["Developing area with potential",
       "Local amenities available",
       "Growing community",
       "Investment opportunities"]
  | _ =>
      ["Developing area with potential",
       "Local amenities available",
       "Growing community",
       "Investment opportunities"]

/-- The Colombo `district_bullets` extras. -/
def colomboDistrictBullets (district : FVal) : List String :=
  match district with
  | .str d =>
    if d == "Colombo 1" then
      ["Prime business district", "Financial institutions",
       "Government offices", "High commercial value"]
    else if d == "Colombo 3" then
      ["Upscale residential area", "Close to beach",
       "International schools", "High-end restaurants"]
    else if d == "Colombo 7" then
      ["Most prestigious area", "Diplomatic missions",
       "Luxury residences", "Exclusive clubs"]
    else if d == "Colombo 5" then
      ["Upscale residential", "Good schools",
       "Shopping areas", "Family-friendly"]
    else []
  | _ => []

/-- `LocationAgent._generate_location_bullets`. -/
def generate_location_bullets (lat lon city district : FVal) :
    Except String (List String) :=
  let bullets0 : List String := if city.truthy then cityBullets city else []
  let bullets1 := if city == FVal.str "Colombo" && district.truthy then
      bullets0 ++ colomboDistrictBullets district else bullets0
  if lat.truthy && lon.truthy then
    match pyFormatF lat 4, pyFormatF lon 4 with
    | .ok la, .ok lo => .ok (bullets1 ++ ["Coordinates: " ++ la ++ ", " ++ lo])
    | _, _ => .error "ValueError"
  else .ok bullets1

/-- `LocationAgent._generate_location_summary`: score-banded templates.
In the four high bands the f-string evaluates `' - ' + district` (string
concatenation, raising on truthy non-string districts); the low band only
interpolates. -/
def generate_location_summary (score : ℚ) (city district : FVal) :
    Except String String :=
  if score ≥ 6/10 then
    match (if district.truthy then
             match district with
             | .str d => (.ok (" - " ++ d) : Except String String)
             | _ => (.error "TypeError" : Except String String)
           else .ok "") with
    | .error e => .error e
    | .ok sfx =>
      if score ≥ 9/10 then
        .ok ("Excellent location in " ++ city.pystr ++ sfx ++
          ". Prime area with high investment potential and excellent amenities.")
      else if score ≥ 8/10 then
        .ok ("Very good location in " ++ city.pystr ++ sfx ++
          ". Desirable area with good infrastructure and growth potential.")
      else if score ≥ 7/10 then
        .ok ("Good location in " ++ city.pystr ++ sfx ++
          ". Well-established area with decent amenities and investment value.")
      else
        .ok ("Fair location in " ++ city.pystr ++ sfx ++
          ". Developing area with potential for growth and improvement.")
  else
    -- `loc` is built but never interpolated in the source's low-band message
    let _loc := if city.truthy then
        " in " ++ city.pystr ++
          (if district.truthy then " - " ++ district.pystr else "")
      else ""
    let scorePct := pyint (score * 100)
    .ok ("Location has a low score (Score: " ++ toString scorePct ++ "%). " ++
      "This indicates limited nearby amenities (schools, hospitals, transport) " ++
      "and/or higher local risks. " ++
      "Check the 'Nearby facilities' and 'Risk Assessment' sections to see " ++
      "which factors affect this location and whether they matter for your decision.")

/-- The city reference entry of `_generate_provenance` (`city.replace(' ',
'_')` raises `AttributeError` on a truthy non-string). -/
def provCityEntries (city : FVal) : Except String (List Prov) :=
  if city.truthy then
    match city with
    | .str c =>
        let slug := String.mk (c.data.map (fun ch =>
          if ch == ' ' then '_' else ch))
        .ok [Prov.mk ("Wikipedia - " ++ c) "Wikipedia"
          ("General information about " ++ c ++ ", Sri Lanka.")
          ("https://en.wikipedia.org/wiki/" ++ slug) (9/10)]
    | _ => .error "AttributeError"
  else .ok []

/-- The district reference entry of `_generate_provenance`. -/
def provDistrictEntries (district : FVal) : List Prov :=
  if district.truthy then
    let q := district.pystr ++ " Sri Lanka district"
    [Prov.mk ("District Profile - " ++ district.pystr) "Web Search"
      ("Overview and stats for " ++ district.pystr ++ " District, Sri Lanka.")
      ("https://www.google.com/search?q=" ++
        String.mk (q.data.map (fun ch => if ch == ' ' then '+' else ch)))
      (85/100)]
  else []

/-- The coordinate map-view entries of `_generate_provenance`
(`f"{lat:.6f}"` raises on truthy non-numeric coordinates). -/
def provCoordEntries (lat lon : FVal) : Except String (List Prov) :=
  if lat.truthy && lon.truthy then
    match pyFormatF lat 6, pyFormatF lon 6 with
    | .ok latS, .ok lonS =>
        .ok [Prov.mk "OpenStreetMap View" "OpenStreetMap"
               ("Map view centered at coordinates " ++ latS ++ ", " ++
                 lonS ++ ".")
               ("https://www.openstreetmap.org/#map=16/" ++
                 (latS ++ ("/" ++ lonS))) (8/10),
             Prov.mk "Google Maps" "Google Maps"
               "Interactive map and nearby amenities."
               ("https://www.google.com/maps/@" ++
                 (latS ++ ("," ++ (lonS ++ ",16z")))) (8/10)]
    | _, _ => .error "ValueError"
  else .ok []

/-- The always-present market-trends entry of `_generate_provenance`. -/
def trendsProv : Prov :=
  Prov.mk "Sri Lanka Real Estate Insights" "Market Data"
    "General trends and references for Sri Lankan property market."
    "https://www.google.com/search?q=sri+lanka+real+estate+market+trends"
    (7/10)

/-- `LocationAgent._generate_provenance`: deterministic reference links
(Wikipedia / Google search / OpenStreetMap / Google Maps / market trends). -/
def generate_provenance (lat lon city district : FVal) :
    Except String (List Prov) :=
  match provCityEntries city with
  | .error e => .error e
  | .ok cityEntries =>
    match provCoordEntries lat lon with
    | .error e => .error e
    | .ok coordEntries =>
      .ok (cityEntries ++ provDistrictEntries district ++ coordEntries ++
        [trendsProv])

/-- Result dictionary of `LocationAgent.analyze_location` (the `error` key
exists only on the exception path). -/
structure LocResult where
  score : ℚ
  bullets : List String
  summary : String
  provenance : List Prov
  error : Option String
deriving Repr

/-- The `try:` body of `LocationAgent.analyze_location`. -/
def locBody (lat lon city district : FVal) (sqrtF : ℚ → ℚ) (j : ℚ) :
    Except String LocResult :=
  match calculate_location_score lat lon city district sqrtF j with
  | .error e => .error e
  | .ok score =>
    match generate_location_bullets lat lon city district with
    | .error e => .error e
    | .ok bullets =>
      match generate_location_summary score city district with
      | .error e => .error e
      | .ok summary =>
        match generate_provenance lat lon city district with
        | .error e => .error e
        | .ok prov => .ok ⟨score, bullets, summary, prov, Option.none⟩

/-- `LocationAgent.analyze_location`: heuristic analysis with a top-level
`except` returning the neutral 0.5-score dictionary.  The LLM is never
consulted by this method. -/
def analyze_location (lat lon city district : FVal) (sqrtF : ℚ → ℚ)
    (j : ℚ) : LocResult :=
  match locBody lat lon city district sqrtF j with
  | .ok r => r
  | .error e =>
      ⟨1/2, ["Location analysis unavailable"], "Unable to analyze location",
        [], some e⟩

/-! ## Pipeline Orchestrator (`app/api/query.py`, `_run_analysis_pipeline`)

The secondary market-value estimator of `DealAgent` and the land-details
and explanation helpers are modelled first; the orchestrator body follows
as an explicit step chain with its top-level `except` producing the
degraded dictionary. -/

/-- Python truthiness of a decoded JSON value. -/
def JVal.truthy : JVal → Bool
  | .null => false
  | .bool b => b
  | .num q => q != 0
  | .str s => s != ""
  | .arr l => !l.isEmpty
  | .obj l => !l.isEmpty

/-- Python `a or b` where `a` is `p.get(k)` (absent key gives `None`). -/
def jOr (a : Option JVal) (b : JVal) : JVal :=
  match a with
  | some v => if v.truthy then v else b
  | Option.none => b

/-- A JSON value used as a number (`bool` is an `int` subclass in Python;
anything else raises `TypeError` in arithmetic against a float). -/
def jvalAsNum : JVal → Except String ℚ
  | .num q => .ok q
  | .bool b => .ok (if b then 1 else 0)
  | _ => .error "TypeError"

/-- Python `v > 0` on a decoded JSON value (`None`, strings, lists and
dicts do not compare against `int` and raise `TypeError`). -/
def jvalGt0 : JVal → Except String Bool
  | .num q => .ok (decide (q > 0))
  | .bool b => .ok b
  | _ => .error "TypeError"

/-- A normalized market reference produced by
`DealAgent.llm_estimate_market_value` (`doc_id`/`link`/`snippet` keep the
raw JSON values selected by the `or`-chains). -/
structure MRef where
  doc_id : JVal
  link : JVal
  snippet : JVal
deriving Repr

/-- One entry of `data['provenance']` is normalized only when it is a
dict (`isinstance(p, dict)`). -/
def mrefOf : JVal → Option MRef
  | .obj pl =>
      some ⟨jOr (jget pl "title") (jOr (jget pl "name") (.str "Market Reference")),
            jOr (jget pl "link") (jOr (jget pl "url") (.str "")),
            jOr (jget pl "snippet") (.str "")⟩
  | _ => Option.none

/-- `prov = data.get('provenance') or []` followed by the
`isinstance(prov, list)` normalization: only a (truthy) list is mapped,
everything else yields `[]`. -/
def normProvOf : Option JVal → List MRef
  | some (.arr ps) => ps.filterMap mrefOf
  | _ => []

/-- The `price_per_sqft` back-fill of `llm_estimate_market_value`: when the
key is missing and the request has a truthy `area`, divide the raw
`estimated_price` value by the area (a non-numeric area or price raises
inside the method's own `try`). -/
def ppsFill (f : Features) (l : List (String × JVal)) :
    Except String (List (String × JVal)) :=
  if (jget l "price_per_sqft").isNone && (fgetD f "area" FVal.none).truthy then
    let area := if (fgetD f "area" FVal.none).truthy then fgetD f "area" FVal.none
                else FVal.num 0
    match pyGtNum area 0 with
    | .error e => .error e
    | .ok false => .ok l
    | .ok true =>
      match area.asNum with
      | .error e => .error e
      | .ok a =>
        match jget l "estimated_price" with
        | Option.none => .ok l
        | some ep =>
          match jvalAsNum ep with
          | .error e => .error e
          | .ok q => .ok (l ++ [("price_per_sqft", JVal.num (q / a))])
  else .ok l

/-- The pipeline-visible outcome of `llm_estimate_market_value`: the raw
`estimated_price` value, the optional `price_per_sqft`, and the normalized
provenance list. -/
structure LlmMarket where
  estimated_price : JVal
  price_per_sqft : Option JVal
  provenance : List MRef
deriving Repr

/-- The `try:` body of `llm_estimate_market_value`: decode the response
(full-text `json.loads`, then the first-`\x7b`-to-last-`\x7d` slice), require a
dict containing `estimated_price`, back-fill `price_per_sqft`, normalize
provenance.  `.ok Option.none` is the method's own `return None`. -/
def llmMarketBody (resp : Except String String) (f : Features) :
    Except String (Option LlmMarket) :=
  match resp with
  | .error e => .error e
  | .ok text =>
    let data : Option JVal :=
      match json_loads text with
      | some v => some v
      | Option.none =>
        match dealExtract text.data with
        | some span => json_loads (String.mk span)
        | Option.none => Option.none
    match data with
    | some (.obj l) =>
      match jget l "estimated_price" with
      | Option.none => .ok Option.none
      | some ep =>
        match ppsFill f l with
        | .error e => .error e
        | .ok l2 => .ok (some ⟨ep, jget l2 "price_per_sqft", normProvOf (jget l2 "provenance")⟩)
    | _ => .ok Option.none

/-- `DealAgent.llm_estimate_market_value`: `None` without a configured LLM,
and the method's own `except` also returns `None`. -/
def llm_estimate_market_value (hasLlm : Bool) (resp : Except String String)
    (f : Features) : Option LlmMarket :=
  if !hasLlm then Option.none
  else
    match llmMarketBody resp f with
    | .ok r => r
    | .error _ => Option.none

/-- `DealAgent.analyze_land_details` outcomes: the no-LLM/`except`
fallback dictionary, a decoded JSON analysis, the raw-text dictionary on a
decode failure, or the orchestrator's degraded `land_details` dictionary. -/
inductive LandDetails where
  | fallback (land_size property_type city : FVal)
  | parsed (v : JVal)
  | rawText (text : String)
  | degraded
deriving Repr

/-- `DealAgent.analyze_land_details`: never raises — prompt-formatting or
LLM failures fall back; a JSON decode failure returns the raw text. -/
def analyze_land_details (hasLlm : Bool) (resp : Except String String)
    (f : Features) (asking : FVal) : LandDetails :=
  let fb := LandDetails.fallback (fgetD f "land_size" (.num 0))
      (fgetD f "property_type" (.str "House")) (fgetD f "city" (.str "Unknown"))
  if !hasLlm then fb
  else
    match pyFormatCommaF0 asking with
    | .error _ => fb
    | .ok _ =>
      match resp with
      | .error _ => fb
      | .ok text =>
        match json_loads text with
        | some v => .parsed v
        | Option.none => .rawText text

/-- `DealAgent.llm_explain`: `None` without a configured LLM; any failure
inside its `try` (prompt formatting or the LLM call, folded into the
oracle outcome) also returns `None`. -/
def llm_explain (hasLlm : Bool) (resp : Except String String) : Option String :=
  if !hasLlm then Option.none
  else
    match resp with
    | .ok t => some t
    | .error _ => Option.none

/-- One entry of the orchestrator's `provenance` list: the tag-adjustment
note, a normalized market reference, or a Location Engine entry. -/
inductive PipeProv where
  | tagAdj (factor original adjusted : ℚ)
  | mref (p : MRef)
  | loc (p : Prov)
deriving Repr

/-- The `positive_tags` premium table of `_run_analysis_pipeline`. -/
def posTags : List (String × ℚ) :=
  [("swimming pool", 1/25), ("solar power", 3/100), ("sea view", 3/50),
   ("mountain view", 1/50), ("lake view", 3/100), ("rooftop terrace", 1/50),
   ("garden", 3/200), ("security system", 3/200), ("lift", 3/200),
   ("air conditioning", 1/100), ("rainwater harvesting", 1/200),
   ("energy efficient", 1/100), ("green building", 1/50)]

/-- The `negative_tags` discount table of `_run_analysis_pipeline`. -/
def negTags : List (String × ℚ) :=
  [("needs renovation", -(7/100)), ("under construction", -(1/20))]

/-- One iteration of the tag loop (`+=` from each table the tag occurs in). -/
def tagStep (acc : ℚ) (t : String) : ℚ :=
  let a1 := match posTags.lookup t with
            | some d => acc + d
            | Option.none => acc
  match negTags.lookup t with
  | some d => a1 + d
  | Option.none => a1

def tagFactor (tags : List String) : ℚ := tags.foldl tagStep 1

/-- The tag-adjustment step: when the factor is not `1.0`, round the scaled
price to two decimals and record a `tag_adjustment` provenance note. -/
def tagAdjust (tags : List String) (ep0 : ℚ) : ℚ × List PipeProv :=
  let tf := tagFactor tags
  if tf != 1 then
    (roundTo 2 (ep0 * tf), [PipeProv.tagAdj tf ep0 (roundTo 2 (ep0 * tf))])
  else (ep0, [])

/-- `estimated_price / (features.get('area') or 1)` of the blend step. -/
def qDivFVal (q : ℚ) (v : FVal) : Except String ℚ :=
  match v with
  | .num a => if a == 0 then .error "ZeroDivisionError" else .ok (q / a)
  | _ => .error "TypeError"

/-- Opaque payload of the nearby/risk attachment block (external services). -/
structure AttachInfo where
  risk : JVal
  nearby : JVal
  facility_counts : JVal
  facility_summary : JVal
deriving Repr

/-- Oracle bundle for one `_run_analysis_pipeline` call: the deal agent's
LLM configuration and its three `generate_content` outcomes, the location
engine's square-root/jitter oracles, the price agent's oracle, and the
nearby/risk attachment outcome. -/
structure PipeOracle where
  hasLlm : Bool
  marketResp : Except String String
  landResp : Except String String
  explainResp : Except String String
  sqrtF : ℚ → ℚ
  j : ℚ
  priceO : PriceOracle
  attach : Except String AttachInfo

/-- The orchestrator's result dictionary.  `Option`-typed fields model
keys present only on some paths (`analyze_location`, `currency`,
`price_per_sqft`, `llm_explanation`, `error`); on the degraded path
`estimated_price` is the raw `features.get('asking_price', 0)` value. -/
structure PipeResult where
  estimated_price : FVal
  location_score : ℚ
  analyze_location : Option (Option (LocResult × AttachInfo))
  deal_verdict : String
  why : String
  confidence : ℚ
  provenance : List PipeProv
  land_details : LandDetails
  currency : Option String
  price_per_sqft : Option ℚ
  llm_explanation : Option String
  error : Option String

/-- The blend guard `llm_price and isinstance(llm_price, dict) and
llm_price.get('estimated_price', 0) > 0` (the returned dict is never
empty, so its truthiness holds whenever the call returned one). -/
def blendGuard (lm : Option LlmMarket) : Except String Bool :=
  match lm with
  | some m => jvalGt0 m.estimated_price
  | Option.none => .ok false

/-- The blend step (`query.py` lines 469-479): with a positive LLM
estimate, `blended = heuristic_conf*estimated + (1-heuristic_conf)*llm`,
rounded to two decimals; `price_per_sqft` is recomputed from the rounded
blend when the request has a truthy `area`; the normalized LLM provenance
is carried along. -/
def blendStep (conf ep1 pps0 : ℚ) (lm : Option LlmMarket) (f : Features) :
    Bool → Except String (ℚ × ℚ × List PipeProv)
  | false => .ok (ep1, pps0, [])
  | true =>
    match lm with
    | Option.none => .ok (ep1, pps0, [])
    | some m =>
      match jvalAsNum m.estimated_price with
      | .error e => .error e
      | .ok lq =>
        let ep2 := roundTo 2 (conf * ep1 + (1 - conf) * lq)
        let provM := m.provenance.map PipeProv.mref
        if (fgetD f "area" FVal.none).truthy then
          let areaV := if (fgetD f "area" FVal.none).truthy
                       then fgetD f "area" FVal.none else FVal.num 1
          match qDivFVal ep2 areaV with
          | .error e => .error e
          | .ok q => .ok (ep2, roundTo 2 q, provM)
        else .ok (ep2, pps0, provM)

/-- The nearby/risk attachment block: its inner `try` swallows every
exception (`analyze_location = None`), so it never reaches the top-level
handler. -/
def attachStep (o : PipeOracle) (locRes : LocResult) :
    Option (LocResult × AttachInfo) :=
  match o.attach with
  | .ok a => some (locRes, a)
  | .error _ => Option.none

/-- Steps 2-6 of the orchestrator body: location analysis, attachment,
deal evaluation, land details, result assembly and the
`asking_price > 0 and estimated_price > 0` explanation guard (which
raises on a non-numeric `asking_price`). -/
def afterBlend (o : PipeOracle) (f : Features) (pr : PriceResult)
    (ep2 pps2 : ℚ) (prov : List PipeProv) : Except String PipeResult :=
  let locRes := analyze_location (fgetD f "lat" FVal.none)
      (fgetD f "lon" FVal.none) (fgetD f "city" FVal.none)
      (fgetD f "district" FVal.none) o.sqrtF o.j
  let asking := fgetD f "asking_price" (FVal.num 0)
  let deal := evaluate_deal asking ep2 locRes.score
  match pyGtNum asking 0 with
  | .error e => .error e
  | .ok askPos =>
      .ok { estimated_price := FVal.num ep2,
            location_score := locRes.score,
            analyze_location := some (attachStep o locRes),
            deal_verdict := deal.verdict,
            why := deal.why,
            confidence := min pr.confidence deal.confidence,
            provenance := prov ++ locRes.provenance.map PipeProv.loc,
            land_details := analyze_land_details o.hasLlm o.landResp f asking,
            currency := some "LKR",
            price_per_sqft := some pps2,
            llm_explanation :=
              if askPos && decide (ep2 > 0) then
                match llm_explain o.hasLlm o.explainResp with
                | some t => if t != "" then some t else Option.none
                | Option.none => Option.none
              else Option.none,
            error := Option.none }

/-- The `try:` body of `_run_analysis_pipeline`: price estimation,
tag adjustment, LLM blend, then steps 2-6 (the query text is unused by the
body). -/
def pipelineBody (o : PipeOracle) (f : Features) ( _qt : String)
    (tags : List String) : Except String PipeResult :=
  let pr := estimate_price o.priceO f
  let tg := tagAdjust tags pr.estimated_price
  match blendGuard (llm_estimate_market_value o.hasLlm o.marketResp f) with
  | .error e => .error e
  | .ok doBlend =>
    match blendStep pr.confidence tg.1 (pr.price_per_sqft.getD 0)
        (llm_estimate_market_value o.hasLlm o.marketResp f) f doBlend with
    | .error e => .error e
    | .ok r => afterBlend o f pr r.1 r.2.1 (tg.2 ++ r.2.2)

/-- The degraded fallback dictionary of `_run_analysis_pipeline`'s
`except` clause: raw asking price echoed back, neutral score, `"Fair"`,
fixed message, confidence `0.3`, empty provenance, a fixed `land_details`
dictionary, the error string — and no `currency`, `price_per_sqft`,
`analyze_location` or `llm_explanation` keys. -/
def degradedResult (f : Features) (e : String) : PipeResult :=
  { estimated_price := fgetD f "asking_price" (FVal.num 0),
    location_score := 1/2,
    analyze_location := Option.none,
    deal_verdict := "Fair",
    why := "Analysis incomplete due to system error",
    confidence := 3/10,
    provenance := [],
    land_details := .degraded,
    currency := Option.none,
    price_per_sqft := Option.none,
    llm_explanation := Option.none,
    error := some e }

/-- `_run_analysis_pipeline`: the body with its top-level `except`. -/
def run_analysis_pipeline (o : PipeOracle) (f : Features) (qt : String)
    (tags : List String) : PipeResult :=
  match pipelineBody o f qt tags with
  | .ok r => r
  | .error e => degradedResult f e

/-! ## Concrete oracles used by witnesses and counterexamples -/

def zeroRng : PyRng := ⟨fun _ => 0, fun _ => 0⟩

def zeroTrig : TrigOracle := ⟨fun _ => 0, fun _ => 0, fun _ => 0⟩

/-- A `PriceAgent` with no Gemini model configured (`self.model = None`). -/
def oNoModel : PriceOracle := ⟨false, .ok "", zeroRng, zeroTrig⟩

/-- A well-formed Colombo feature set. -/
def fColombo : Features :=
  [("city", FVal.str "Colombo"), ("area", FVal.num 1000),
   ("asking_price", FVal.num 5000000)]

/-- A model response whose JSON object contains a nested object. -/
def nestedResp : String :=
  "\x7b\"estimated_price\": 100, \"meta\": \x7b\"a\": 1\x7d\x7d"

/-- `true` iff the text contains no brace. -/
def noBraces (l : List Char) : Bool := l.all (fun c => c != '{' && c != '}')

/-- A market-value response whose `estimated_price` is a JSON string: the
blend guard's `llm_price.get('estimated_price', 0) > 0` comparison then
raises `TypeError` inside the orchestrator body. -/
def mktRespStr : String := "\x7b\"estimated_price\": \"x\"\x7d"

/-- A pipeline oracle with a configured deal-agent LLM whose market-value
response is `mktRespStr` and whose other external calls fail. -/
def oC2 : PipeOracle :=
  ⟨true, .ok mktRespStr, .error "offline", .error "offline",
   fun q => q, 0, oNoModel, .error "offline"⟩

/-- A well-formed market-value response with a positive estimate and an
explicit `price_per_sqft`. -/
def mktRespNum : String :=
  "\x7b\"estimated_price\": 2000000, \"price_per_sqft\": 2000\x7d"

/-- A pipeline oracle with a configured deal-agent LLM returning
`mktRespNum` (the price agent itself has no model). -/
def oC5 : PipeOracle :=
  ⟨true, .ok mktRespNum, .error "offline", .error "offline",
   fun q => q, 0, oNoModel, .error "offline"⟩

/-- The decoded outcome of `llm_estimate_market_value` on `mktRespNum`. -/
def mC5 : LlmMarket := ⟨JVal.num 2000000, some (JVal.num 2000), []⟩

/-! # Theorems -/

/-- Helper: a successful `_generate_comps` always yields exactly 3 mock
comparables (the `range(3)` loop). -/
theorem generate_comps_length (g : PyRng) (f : Features) (ep : ℚ)
    (l : List Comp) (h : generate_comps g f ep = .ok l) : l.length = 3 := by
  unfold generate_comps at h
  split at h
  · exact absurd h (by simp)
  · simp only [Except.ok.injEq] at h
    subst h
    rfl

/-- Unfolding lemma: on a numeric asking price the try-body of
`evaluate_deal` always succeeds with the rule-based verdict. -/
theorem evaluate_deal_num (a e ls : ℚ) :
    evaluate_deal (.num a) e ls =
      let rq := if e > 0 then a / e else 1
      let vc : String × ℚ :=
        if rq ≤ 17/20 then ("Good Deal", 4/5)
        else if rq ≤ 23/20 then ("Fair", 7/10)
        else ("Overpriced", 4/5)
      ⟨vc.1, explText (fmtComma (roundHalfEven a)) e ls rq vc.1,
        roundTo 2 (max (1/10) (min (19/20) (vc.2 + dealAdj ls))), Option.none⟩ := by
  by_cases he : e > 0 <;>
    simp [evaluate_deal, dealBody, generate_explanation, pyFormatCommaF0, pyDivNum, he]

/-- C3: `evaluate_deal(asking, estimated, location_score)` — non-positive
estimates force ratio 1.0 and verdict "Fair"; otherwise the ratio
`asking/estimated` is classified by the 0.85 / 1.15 thresholds with base
confidences 0.8 / 0.7 / 0.8 (then location-adjusted, clamped, rounded). -/
theorem claim_deal_thresholds (a e ls : ℚ) :
    (e ≤ 0 →
      (evaluate_deal (.num a) e ls).verdict = "Fair" ∧
      (evaluate_deal (.num a) e ls).confidence =
        roundTo 2 (max (1/10) (min (19/20) (7/10 + dealAdj ls)))) ∧
    (0 < e → a / e ≤ 17/20 →
      (evaluate_deal (.num a) e ls).verdict = "Good Deal" ∧
      (evaluate_deal (.num a) e ls).confidence =
        roundTo 2 (max (1/10) (min (19/20) (4/5 + dealAdj ls)))) ∧
    (0 < e → 17/20 < a / e → a / e ≤ 23/20 →
      (evaluate_deal (.num a) e ls).verdict = "Fair" ∧
      (evaluate_deal (.num a) e ls).confidence =
        roundTo 2 (max (1/10) (min (19/20) (7/10 + dealAdj ls)))) ∧
    (0 < e → 23/20 < a / e →
      (evaluate_deal (.num a) e ls).verdict = "Overpriced" ∧
      (evaluate_deal (.num a) e ls).confidence =
        roundTo 2 (max (1/10) (min (19/20) (4/5 + dealAdj ls)))) := by
  rw [evaluate_deal_num]
  refine ⟨fun he => ?_, fun he hr => ?_, fun he hr1 hr2 => ?_, fun he hr => ?_⟩
  · have h0 : ¬ (e > 0) := not_lt.mpr he
    norm_num [h0]
  · simp [he, hr]
  · simp [he, not_le.mpr hr1, hr2]
  · have h1 : ¬ (a / e ≤ 17/20) :=
      not_le.mpr (lt_trans (by norm_num : (17 : ℚ)/20 < 23/20) hr)
    simp [he, h1, not_le.mpr hr]

/-- Witness for C3 at the spec's scenario inputs: ratio 0.8 at a neutral
location score yields "Good Deal" with confidence 0.8. -/
theorem claim_deal_thresholds_witness :
    (evaluate_deal (.num 8000000) 10000000 (1/2)).verdict = "Good Deal" ∧
    (evaluate_deal (.num 8000000) 10000000 (1/2)).confidence = 4/5 := by
  have h := (claim_deal_thresholds 8000000 10000000 (1/2)).2.1
    (by norm_num) (by norm_num)
  refine ⟨h.1, ?_⟩
  rw [h.2]
  norm_num [dealAdj, roundTo, roundHalfEven]

/-- C4: the confidence estimator's output always lies in `[0.1, 0.95]`
(the base term starts at 0.5, the bonus is non-negative and the whole is
capped at 0.95 by the final `min`). -/
theorem claim_confidence_bounds (f : Features) :
    1/10 ≤ calculate_confidence f ∧ calculate_confidence f ≤ 19/20 := by
  unfold calculate_confidence
  constructor
  · apply le_min
    · norm_num
    · have hp : (0:ℚ) ≤
          ((requiredFeatures.filter (fun k => fpresent f k)).length : ℚ) /
            (requiredFeatures.length : ℚ) * (2/5) := by positivity
      have hb : (0:ℚ) ≤ min (1/10)
          (((bonusFeatures.filter (fun k => fpresent f k)).length : ℚ) * (1/50)) :=
        le_min (by norm_num) (by positivity)
      linarith
  · exact min_le_left _ _

/-- C1 counterexample: a present-but-`None` area raises a `TypeError` in the
heuristic path, so `estimate_price` takes its internal error path and
returns `comps = []` — length 0, not 3. -/
theorem claim_comps_always3_counterexample :
    (estimate_price oNoModel [("area", FVal.none)]).comps.length ≠ 3 := by
  decide

/-- Helper: `_get_comparable_properties` returns between 3 and 5 entries
(`random.randint(3, 5)` of them). -/
theorem get_comps_length (g : PyRng) (tr : TrigOracle) (lat lon d : ℚ) :
    3 ≤ (get_comparable_properties g tr lat lon d).length ∧
    (get_comparable_properties g tr lat lon d).length ≤ 5 := by
  unfold get_comparable_properties
  dsimp only
  rw [List.length_map, List.length_range]
  unfold PyRng.randint
  omega

/-- Helper: a successful `aiRetrieve` returns either no comparables (when a
coordinate was absent) or the full retrieved batch. -/
theorem aiRetrieve_cases (o : PriceOracle) (f : Features) (l : List RComp)
    (h : aiRetrieve o f = .ok l) :
    l = [] ∨ (3 ≤ l.length ∧ l.length ≤ 5) := by
  unfold aiRetrieve at h
  dsimp only at h
  split at h
  · rcases h1 : (fgetD f "lat" FVal.none).asNum with e | la <;> rw [h1] at h
    · simp at h
    · rcases h2 : (fgetD f "lon" FVal.none).asNum with e | lo <;> rw [h2] at h
      · simp at h
      · simp only [Except.ok.injEq] at h
        subst h
        exact Or.inr (get_comps_length _ _ _ _ _)
  · simp only [Except.ok.injEq] at h
    subst h
    exact Or.inl rfl

/-- C1 amended: the heuristic fallback path returns exactly 3 comps; the
LLM path returns between 3 and 5 (the retrieved comparables, or exactly 3
generated ones when retrieval was skipped); the internal error path
returns an empty comps list. -/
theorem claim_comps_amended :
    (∀ (g : PyRng) (f : Features) (r : PriceResult),
      fallback_estimate g f = .ok r → r.comps.length = 3) ∧
    (∀ (o : PriceOracle) (f : Features) (r : PriceResult),
      aiBody o f = .ok r → 3 ≤ r.comps.length ∧ r.comps.length ≤ 5) ∧
    (∀ (o : PriceOracle) (f : Features) (e : String),
      priceBody o f = .error e → (estimate_price o f).comps = []) := by
  refine ⟨?_, ?_, ?_⟩
  · intro g f r h
    unfold fallback_estimate at h
    rcases hA : fallbackAvg f with e | avg <;> rw [hA] at h
    · simp at h
    rcases hN : (fgetD f "area" (FVal.num 1000)).asNum with e | a <;> rw [hN] at h
    · simp at h
    dsimp only at h
    rcases hC : generate_comps g f (a * avg) with e | comps <;> rw [hC] at h
    · simp at h
    dsimp only at h
    by_cases hz : (a == 0) = true
    · rw [if_pos hz] at h
      simp at h
    · rw [if_neg hz] at h
      simp only [Except.ok.injEq] at h
      subst h
      simp [List.length_map, generate_comps_length _ _ _ _ hC]
  · intro o f r h
    unfold aiBody at h
    rcases hF : format_property_details f with e | u <;> rw [hF] at h
    · simp at h
    rcases hR : aiRetrieve o f with e | comparable <;> rw [hR] at h
    · simp at h
    rcases hT : o.resp with e | text <;> rw [hT] at h
    · simp at h
    dsimp only at h
    rcases hC : aiComps o f comparable (parse_ai_response text).estimated_price
        with e | comps <;> rw [hC] at h
    · simp at h
    dsimp only at h
    rcases hN : (fgetD f "area" (FVal.num 1000)).asNum with e | a <;> rw [hN] at h
    · simp at h
    dsimp only at h
    by_cases hz : (a == 0) = true
    · rw [if_pos hz] at h
      simp at h
    · rw [if_neg hz] at h
      simp only [Except.ok.injEq] at h
      subst h
      simp only
      unfold aiComps at hC
      by_cases hne : (!comparable.isEmpty) = true
      · rw [if_pos hne] at hC
        simp only [Except.ok.injEq] at hC
        subst hC
        rw [List.length_map]
        rcases aiRetrieve_cases o f comparable hR with hnil | hlen
        · subst hnil
          simp at hne
        · exact hlen
      · rw [if_neg hne] at hC
        rcases hG : generate_comps o.g f (parse_ai_response text).estimated_price
            with e | gl <;> rw [hG] at hC
        · exact absurd hC (by simp [Except.map])
        · simp only [Except.map, Except.ok.injEq] at hC
          subst hC
          have h3 := generate_comps_length _ _ _ _ hG
          rw [List.length_map, h3]
          omega
  · intro o f e h
    unfold estimate_price
    rw [h]
    rfl

/-- Witness for C1 (amended): the heuristic path on an empty feature dict
succeeds and returns exactly 3 comps. -/
theorem claim_comps_amended_witness :
    (estimate_price oNoModel []).comps.length = 3 := by
  have h : fallback_estimate zeroRng [] = .ok (estimate_price oNoModel []) := by rfl
  exact claim_comps_amended.1 zeroRng [] _ h

/-- C8 counterexample: on a JSON object containing a nested object the
parser's regex `\{[^{}]*\}` does not extract the first *balanced* span
(it grabs the innermost flat one), and the decoded estimate is the default
0 rather than the object's 100. -/
theorem claim_parser_balanced_counterexample :
    extractFlatSpan nestedResp.data ≠ firstBalancedSpan nestedResp.data ∧
    (parse_ai_response nestedResp).estimated_price = 0 := by
  constructor
  · decide
  · decide

/-- C8 amended: the extraction is sound for *nesting-free* spans — any span
the price parser's regex extracts is `{...}` with no internal brace (so a
top-level object containing a nested object is never decoded whole) — and
the parser never raises, returning a confidence within `[0.1, 0.95]` on
every input (LLM-scrape fallback 0.6 and ultimate default 0.3 included). -/
theorem claim_parser_flat_extraction :
    (∀ (t s : List Char), extractFlatSpan t = some s →
      ∃ inner, s = '{' :: (inner ++ ['}']) ∧ noBraces inner = true) ∧
    (∀ t : String, 1/10 ≤ (parse_ai_response t).confidence ∧
      (parse_ai_response t).confidence ≤ 19/20) := by
  constructor
  · have hflat : ∀ (l inner : List Char), flatTail l = some inner →
        noBraces inner = true := by
      intro l
      induction l with
      | nil => intro inner h; exact absurd h (by simp [flatTail])
      | cons c rest ih =>
        intro inner h
        unfold flatTail at h
        by_cases h1 : c == '}'
        · simp only [h1, if_true] at h
          simp only [Option.some.injEq] at h
          subst h
          rfl
        · by_cases h2 : c == '{'
          · simp [h1, h2] at h
          · simp only [h1, h2, if_false] at h
            rcases hft : flatTail rest with _ | inner'
            · rw [hft] at h
              exact absurd h (by simp)
            · rw [hft] at h
              simp at h
              subst h
              have hrec := ih inner' hft
              simp only [noBraces, List.all_cons] at hrec ⊢
              simp only [beq_iff_eq] at h1 h2
              simp [h1, h2, hrec]
    intro t
    induction t with
    | nil => intro s h; exact absurd h (by simp [extractFlatSpan])
    | cons c rest ih =>
      intro s h
      unfold extractFlatSpan at h
      by_cases h1 : c == '{'
      · simp only [h1, if_true] at h
        rcases hft : flatTail rest with _ | inner
        · rw [hft] at h
          exact ih s h
        · rw [hft] at h
          simp only [Option.some.injEq] at h
          subst h
          exact ⟨inner, rfl, hflat rest inner hft⟩
      · simp only [h1, if_false] at h
        exact ih s h
  · intro t
    unfold parse_ai_response
    rcases extractFlatSpan t.data with _ | span
    · dsimp only
      rcases lkrExtract t.data with _ | g
      · norm_num [parsedAIDefault]
      · dsimp only
        rcases pyFloatOfStr (String.mk (g.filter (· != ','))) with e | q
        · norm_num [parsedAIDefault]
        · norm_num
    · dsimp only
      rcases json_loads (String.mk span) with _ | j
      · norm_num [parsedAIDefault]
      · rcases j with _ | b | q | s | l | kvs <;> dsimp only <;>
          try norm_num [parsedAIDefault]
        rcases pyFloat (jgetD kvs "estimated_price" (.num 0)) with e | ep <;>
          rcases pyFloat (jgetD kvs "confidence" (.num (1/2))) with e2 | cf <;>
          dsimp only <;> norm_num [parsedAIDefault]

/-- Witness for C8 (amended): the extraction applied to a concrete wrapped
flat object. -/
theorem claim_parser_flat_extraction_witness :
    ∃ inner, ['{', 'a', '}'] = '{' :: (inner ++ ['}']) ∧ noBraces inner = true :=
  claim_parser_flat_extraction.1 "x{a}y".data ['{', 'a', '}'] (by decide)

/-- C6 counterexample: the sanitizer is not idempotent — markup escaping is
re-applied to its own output, so `sanitize("&") = "&amp;"` while
`sanitize("&amp;") = "&amp;amp;"`. -/
theorem claim_sanitize_idempotent_counterexample :
    sanitize_input (sanitize_input "&") ≠ sanitize_input "&" := by
  decide

/-- C6 amended: `sanitize` is the identity — hence idempotence holds — on
exactly the texts each stage individually fixes: no markup-escapable
character, no toxicity/PII match, whitespace already collapsed and
stripped, and length at most 10,000.  (Idempotence fails in general
because escaping re-escapes the `&` of entities it or a previous pass
produced, and because the truncation marker pushes a re-truncation.) -/
theorem claim_sanitize_fixed_points (s : String)
    (h1 : htmlEscape s.data = s.data)
    (h2 : reSub toxicityRE "[REDACTED]".data s.data = s.data)
    (h3 : reSub piiRE "[PII_REDACTED]".data s.data = s.data)
    (h4 : stripWs (collapseWsRuns s.data) = s.data)
    (h5 : s.length ≤ 10000) :
    sanitize_input s = s := by
  unfold sanitize_input
  by_cases he : (s == "") = true
  · simp only [beq_iff_eq] at he
    simp [he]
  · rw [if_neg (by simpa using he)]
    dsimp only
    rw [h1, h2, h3, h4]
    have hlen : ¬ (s.data.length > 10000) := by
      have : s.length = s.data.length := rfl
      omega
    rw [if_neg hlen]

/-- Witness for C6 (amended): a plain word is a fixed point of every stage,
so sanitizing it twice equals sanitizing it once. -/
theorem claim_sanitize_fixed_points_witness :
    sanitize_input "hello" = "hello" :=
  claim_sanitize_fixed_points "hello" (by decide) (by decide) (by decide)
    (by decide) (by decide)

/-! ### URL-safety helper lemmas -/

theorem containsSub_nil (x : List Char) : containsSub [] x = true := by
  cases x <;> simp [containsSub, List.isPrefixOf]

theorem isPrefixOf_append_of_le (s : List Char) :
    ∀ (l b : List Char), s.length ≤ l.length →
      s.isPrefixOf (l ++ b) = s.isPrefixOf l := by
  induction s with
  | nil => intro l b _; simp [List.isPrefixOf]
  | cons c s' ih =>
    intro l b hl
    cases l with
    | nil => simp at hl
    | cons d l' =>
      simp only [List.cons_append, List.isPrefixOf, List.append_eq]
      rw [ih l' b (by simpa using hl)]

theorem splitScheme_some_length (l : List Char) (p : List Char × List Char)
    (h : splitScheme l = some p) : 3 ≤ l.length := by
  induction l generalizing p with
  | nil => simp [splitScheme] at h
  | cons c rest ih =>
    unfold splitScheme at h
    by_cases hp : ("://".data.isPrefixOf (c :: rest)) = true
    · have hlen := (List.isPrefixOf_iff_prefix.mp hp).length_le
      have h3 : "://".data.length = 3 := rfl
      rw [h3] at hlen
      exact hlen
    · rw [if_neg hp] at h
      rcases hS : splitScheme rest with _ | q
      · rw [hS] at h; simp at h
      · have := ih q hS
        simp only [List.length_cons]
        omega

theorem splitScheme_contains (l : List Char) (p : List Char × List Char)
    (h : splitScheme l = some p) : containsSub "://".data l = true := by
  induction l generalizing p with
  | nil => simp [splitScheme] at h
  | cons c rest ih =>
    unfold splitScheme at h
    unfold containsSub
    by_cases hp : ("://".data.isPrefixOf (c :: rest)) = true
    · simp [hp]
    · rw [if_neg hp] at h
      rcases hS : splitScheme rest with _ | q
      · rw [hS] at h; simp at h
      · simp [ih q hS]

theorem containsSub_append_left (s a b : List Char)
    (h : containsSub s a = true) : containsSub s (a ++ b) = true := by
  induction a with
  | nil =>
    have hs : s = [] := by
      simpa [containsSub, List.isEmpty_iff] using h
    subst hs
    rw [List.nil_append]
    exact containsSub_nil b
  | cons c rest ih =>
    unfold containsSub at h ⊢
    rw [Bool.or_eq_true] at h
    rcases h with hpre | hrest
    · have hsp : s <+: c :: (rest ++ b) := by
        have hx := (List.isPrefixOf_iff_prefix.mp hpre).trans
          (List.prefix_append (c :: rest) b)
        rwa [List.cons_append] at hx
      simp [List.isPrefixOf_iff_prefix.mpr hsp]
    · simp [ih hrest]

theorem splitScheme_append (a : List Char) :
    ∀ (b s r : List Char), splitScheme a = some (s, r) →
      splitScheme (a ++ b) = some (s, r ++ b) := by
  induction a with
  | nil => intro b s r h; simp [splitScheme] at h
  | cons c rest ih =>
    intro b s r h
    unfold splitScheme at h ⊢
    by_cases hp : ("://".data.isPrefixOf (c :: rest)) = true
    · rw [if_pos hp] at h
      simp only [Option.some.injEq, Prod.mk.injEq] at h
      obtain ⟨hs, hr⟩ := h
      rw [List.cons_append]
      dsimp only
      have hp2 : ("://".data.isPrefixOf (c :: (rest ++ b))) = true := by
        rw [← List.cons_append]
        exact List.isPrefixOf_iff_prefix.mpr
          ((List.isPrefixOf_iff_prefix.mp hp).trans (List.prefix_append _ b))
      rw [if_pos hp2]
      have hdrop : (c :: (rest ++ b)).drop 3 = (c :: rest).drop 3 ++ b := by
        rw [← List.cons_append]
        apply List.drop_append_of_le_length
        have hl3 := (List.isPrefixOf_iff_prefix.mp hp).length_le
        have h3 : "://".data.length = 3 := rfl
        rw [h3] at hl3
        exact hl3
      rw [hdrop, hr, ← hs]
    · rw [if_neg hp] at h
      rcases hS : splitScheme rest with _ | q
      · rw [hS] at h; simp at h
      · rw [hS] at h
        simp only [Option.map_some', Option.some.injEq] at h
        have hlen : 3 ≤ rest.length := splitScheme_some_length rest q hS
        have hp3 : ("://".data.isPrefixOf ((c :: rest) ++ b)) =
            "://".data.isPrefixOf (c :: rest) := by
          apply isPrefixOf_append_of_le
          have h3 : "://".data.length = 3 := rfl
          rw [h3]
          simp only [List.length_cons]
          omega
        rw [List.cons_append]
        dsimp only
        rw [if_neg (by rw [← List.cons_append, hp3]; exact hp)]
        have hrec := ih b q.1 q.2 (by rw [hS])
        rw [hrec]
        simp only [Option.map_some', Option.some.injEq]
        have hs : c :: q.1 = s := congrArg Prod.fst h
        have hr : q.2 = r := congrArg Prod.snd h
        rw [← hs, ← hr]

theorem takeWhile_append_stop (p : Char → Bool) (a : List Char) :
    ∀ b, a.any (fun c => !p c) = true →
      (a ++ b).takeWhile p = a.takeWhile p := by
  induction a with
  | nil => intro b h; simp at h
  | cons c rest ih =>
    intro b h
    rw [List.cons_append, List.takeWhile_cons, List.takeWhile_cons]
    by_cases hc : p c = true
    · rw [if_pos hc, if_pos hc]
      have hrest : rest.any (fun c => !p c) = true := by
        simp only [List.any_cons, hc, Bool.not_true, Bool.false_or] at h
        exact h
      rw [ih b hrest]
    · rw [if_neg hc, if_neg hc]

theorem domainOf_append (rest b : List Char)
    (h : rest.any (fun c => c == '/') = true) :
    domainOf (rest ++ b) = domainOf rest := by
  unfold domainOf
  rw [takeWhile_append_stop _ rest b (by simpa [bne] using h)]

/-- Any URL of the form `pre ++ suffix` — with `pre` containing the scheme
separator, an allow-list-free domain, and a `/` ending the domain — is
rejected by `_is_safe_url`, whatever the suffix. -/
theorem unsafe_url_of_prefix (pre suffix : String) (scheme rest : List Char)
    (h1 : splitScheme pre.data = some (scheme, rest))
    (h2 : rest.any (fun c => c == '/') = true)
    (h3 : safeDomains.any (fun d => containsSub d.data (domainOf rest)) = false) :
    is_safe_url (pre ++ suffix) = false := by
  have hdata : (pre ++ suffix).data = pre.data ++ suffix.data :=
    String.data_append pre suffix
  have hne : ((pre ++ suffix) == "") = false := by
    apply beq_eq_false_iff_ne.mpr
    intro hEq
    have hnil : (pre ++ suffix).data = [] := by rw [hEq]
    rw [hdata] at hnil
    have h3l := splitScheme_some_length _ _ h1
    have hlen := congrArg List.length hnil
    simp only [List.length_append, List.length_nil] at hlen
    omega
  have hcon : containsSub "://".data (pre ++ suffix).data = true := by
    rw [hdata]
    exact containsSub_append_left _ _ _ (splitScheme_contains _ _ h1)
  have hsp : splitScheme (pre ++ suffix).data =
      some (scheme, rest ++ suffix.data) := by
    rw [hdata]
    exact splitScheme_append _ _ _ _ h1
  unfold is_safe_url
  rw [hne, hcon, hsp]
  simp only [Bool.false_eq_true, if_false, if_true]
  by_cases hsch : (safeSchemes.contains (lowerStr (String.mk scheme))) = true
  · simp only [hsch, Bool.not_true, Bool.false_eq_true, if_false]
    rw [domainOf_append rest suffix.data h2]
    exact h3
  · have hf : (safeSchemes.contains (lowerStr (String.mk scheme))) = false := by
      simpa using hsch
    rw [hf]
    rfl

/-- C10: output filtering of provenance links — a `://` URL whose domain
part does not contain an allow-listed domain is unsafe and its link is
nulled; every link the location provenance generator can produce is
removed; non-empty scheme-less relative paths pass as safe. -/
theorem claim_provenance_link_filtering :
    (∀ (url : String) (scheme rest : List Char),
      splitScheme url.data = some (scheme, rest) →
      safeDomains.any (fun d => containsSub d.data (domainOf rest)) = false →
      is_safe_url url = false) ∧
    (∀ (lat lon city district : FVal) (ps : List Prov),
      generate_provenance lat lon city district = .ok ps →
      ∀ p ∈ ps, is_safe_url p.link = false) ∧
    (∀ l : List Prov, (∀ p ∈ l, is_safe_url p.link = false) →
      ∀ q ∈ sanitize_provenance l, q.link = Option.none) ∧
    (∀ url : String, url ≠ "" → containsSub "://".data url.data = false →
      is_safe_url url = true) := by
  refine ⟨?_, ?_, ?_, ?_⟩
  · intro url scheme rest h1 h3
    have hne : (url == "") = false := by
      apply beq_eq_false_iff_ne.mpr
      intro hEq
      rw [hEq] at h1
      simp [splitScheme] at h1
    have hcon := splitScheme_contains _ _ h1
    unfold is_safe_url
    rw [hne, hcon, h1]
    simp only [Bool.false_eq_true, if_false, if_true]
    by_cases hsch : (safeSchemes.contains (lowerStr (String.mk scheme))) = true
    · simp only [hsch, Bool.not_true, Bool.false_eq_true, if_false]
      exact h3
    · have hf : (safeSchemes.contains (lowerStr (String.mk scheme))) = false := by
        simpa using hsch
      rw [hf]
      rfl
  · intro lat lon city district ps h p hp
    unfold generate_provenance at h
    rcases hc : provCityEntries city with e | ce <;> rw [hc] at h
    · simp at h
    rcases hco : provCoordEntries lat lon with e | coe <;> rw [hco] at h
    · simp at h
    simp only [Except.ok.injEq] at h
    subst h
    simp only [List.append_assoc, List.mem_append, List.mem_singleton] at hp
    rcases hp with hp | hp | hp | hp
    · -- city reference entry
      unfold provCityEntries at hc
      by_cases ht : city.truthy = true
      · rw [if_pos ht] at hc
        cases city with
        | str c =>
            simp only [Except.ok.injEq] at hc
            subst hc
            simp only [List.mem_singleton] at hp
            subst hp
            exact unsafe_url_of_prefix "https://en.wikipedia.org/wiki/" _
              "https".data "en.wikipedia.org/wiki/".data
              (by decide) (by decide) (by decide)
        | none => simp at hc
        | num q => simp at hc
      · rw [if_neg ht] at hc
        simp only [Except.ok.injEq] at hc
        subst hc
        simp at hp
    · -- district reference entry
      unfold provDistrictEntries at hp
      by_cases ht : district.truthy = true
      · rw [if_pos ht] at hp
        simp only [List.mem_singleton] at hp
        subst hp
        exact unsafe_url_of_prefix "https://www.google.com/search?q=" _
          "https".data "www.google.com/search?q=".data
          (by decide) (by decide) (by decide)
      · rw [if_neg ht] at hp
        simp at hp
    · -- coordinate map-view entries
      unfold provCoordEntries at hco
      by_cases ht : (lat.truthy && lon.truthy) = true
      · rw [if_pos ht] at hco
        rcases hla : pyFormatF lat 6 with e | latS <;> rw [hla] at hco
        · simp at hco
        rcases hlo : pyFormatF lon 6 with e | lonS <;> rw [hlo] at hco
        · simp at hco
        simp only [Except.ok.injEq] at hco
        subst hco
        simp only [List.mem_cons, List.mem_singleton, List.not_mem_nil,
          or_false] at hp
        rcases hp with hp | hp <;> subst hp
        · exact unsafe_url_of_prefix "https://www.openstreetmap.org/#map=16/" _
            "https".data "www.openstreetmap.org/#map=16/".data
            (by decide) (by decide) (by decide)
        · exact unsafe_url_of_prefix "https://www.google.com/maps/@" _
            "https".data "www.google.com/maps/@".data
            (by decide) (by decide) (by decide)
      · rw [if_neg ht] at hco
        simp only [Except.ok.injEq] at hco
        subst hco
        simp at hp
    · -- market-trends entry
      subst hp
      decide
  · intro l hl q hq
    unfold sanitize_provenance at hq
    simp only [List.mem_map] at hq
    obtain ⟨p, hp, rfl⟩ := hq
    simp [hl p hp]
  · intro url hne hcon
    unfold is_safe_url
    rw [beq_eq_false_iff_ne.mpr hne, hcon]
    simp

/-- Witness for C10: the always-present market-trends link of the
provenance generator is classified unsafe. -/
theorem claim_provenance_link_filtering_witness :
    is_safe_url trendsProv.link = false :=
  claim_provenance_link_filtering.2.1 FVal.none FVal.none FVal.none FVal.none
    [trendsProv] rfl trendsProv (by simp)

/-- Helper: a successful heuristic estimate carries no `error` key. -/
theorem fallback_estimate_ok_no_error (g : PyRng) (f : Features)
    (r : PriceResult) (h : fallback_estimate g f = .ok r) :
    r.error = Option.none := by
  unfold fallback_estimate at h
  rcases hA : fallbackAvg f with e | avg <;> rw [hA] at h
  · simp at h
  rcases hN : (fgetD f "area" (FVal.num 1000)).asNum with e | a <;> rw [hN] at h
  · simp at h
  dsimp only at h
  rcases hC : generate_comps g f (a * avg) with e | comps <;> rw [hC] at h
  · simp at h
  dsimp only at h
  by_cases hz : (a == 0) = true
  · rw [if_pos hz] at h
    simp at h
  · rw [if_neg hz] at h
    simp only [Except.ok.injEq] at h
    subst h
    rfl

/-- Helper: a successful `analyze_location` body carries no `error` key. -/
theorem locBody_ok_no_error (lat lon city district : FVal) (sqrtF : ℚ → ℚ)
    (j : ℚ) (r : LocResult)
    (h : locBody lat lon city district sqrtF j = .ok r) :
    r.error = Option.none := by
  unfold locBody at h
  rcases h1 : calculate_location_score lat lon city district sqrtF j
      with e | score <;> rw [h1] at h
  · simp at h
  dsimp only at h
  rcases h2 : generate_location_bullets lat lon city district
      with e | bullets <;> rw [h2] at h
  · simp at h
  dsimp only at h
  rcases h3 : generate_location_summary score city district
      with e | summary <;> rw [h3] at h
  · simp at h
  dsimp only at h
  rcases h4 : generate_provenance lat lon city district
      with e | prov <;> rw [h4] at h
  · simp at h
  simp only [Except.ok.injEq] at h
  subst h
  rfl

/-- C7 counterexample: there is no strict mode in the code — with no LLM
client configured, the Price Engine returns the non-zero heuristic estimate
with no error marker, and the Location Engine returns the heuristic city
score with no error marker, contradicting "score/estimated_price set to 0
… never a heuristic value". -/
theorem claim_strict_mode_counterexample :
    (estimate_price oNoModel fColombo).estimated_price = 45000000 ∧
    (estimate_price oNoModel fColombo).error = Option.none ∧
    (analyze_location FVal.none FVal.none (FVal.str "Colombo") FVal.none
      (fun _ => 0) 0).score = 19/20 ∧
    (analyze_location FVal.none FVal.none (FVal.str "Colombo") FVal.none
      (fun _ => 0) 0).error = Option.none := by
  have hfb : ∀ (r : PriceResult), fallback_estimate zeroRng fColombo = .ok r →
      r.estimated_price = 45000000 := by
    intro r h
    unfold fallback_estimate at h
    have hA0 : fallbackAvg fColombo = .ok ((30000 + 60000)/2) := rfl
    have hA : fallbackAvg fColombo = .ok 45000 := by
      rw [hA0]
      norm_num
    rw [hA] at h
    have hN : (fgetD fColombo "area" (FVal.num 1000)).asNum = .ok 1000 := rfl
    rw [hN] at h
    dsimp only at h
    rcases hC : generate_comps zeroRng fColombo (1000 * 45000)
        with e | comps <;> rw [hC] at h
    · simp at h
    dsimp only at h
    rw [if_neg (by norm_num : ¬ (((1000 : ℚ) == 0) = true))] at h
    simp only [Except.ok.injEq] at h
    subst h
    show roundTo 2 (1000 * 45000) = 45000000
    norm_num [roundTo, roundHalfEven]
  have hscore : calculate_location_score FVal.none FVal.none
      (FVal.str "Colombo") FVal.none (fun _ => 0) 0 = .ok (19/20) := by
    unfold calculate_location_score
    norm_num [cityScore, FVal.truthy, distListScore]
    rw [if_neg (by decide : ¬ ("Colombo" = ""))]
    norm_num
  obtain ⟨bl, hB⟩ : ∃ bl, generate_location_bullets FVal.none FVal.none
      (FVal.str "Colombo") FVal.none = .ok bl := ⟨_, rfl⟩
  obtain ⟨pv, hP⟩ : ∃ pv, generate_provenance FVal.none FVal.none
      (FVal.str "Colombo") FVal.none = .ok pv := ⟨_, rfl⟩
  obtain ⟨sm, hS⟩ : ∃ sm, generate_location_summary (19/20) (FVal.str "Colombo")
      FVal.none = .ok sm := by
    unfold generate_location_summary
    rw [if_pos (by norm_num : ((19:ℚ)/20 ≥ 6/10))]
    dsimp only [FVal.truthy]
    norm_num
    try exact ⟨_, rfl⟩
  have hLB : locBody FVal.none FVal.none (FVal.str "Colombo") FVal.none
      (fun _ => 0) 0 = .ok ⟨19/20, bl, sm, pv, Option.none⟩ := by
    unfold locBody
    rw [hscore]
    dsimp only
    rw [hB]
    dsimp only
    rw [hS]
    dsimp only
    rw [hP]
  have hAL : analyze_location FVal.none FVal.none (FVal.str "Colombo")
      FVal.none (fun _ => 0) 0 = ⟨19/20, bl, sm, pv, Option.none⟩ := by
    unfold analyze_location
    rw [hLB]
  refine ⟨?_, ?_, ?_, ?_⟩
  · exact hfb _ rfl
  · decide
  · rw [hAL]
  · rw [hAL]

/-- C7 amended: the configuration has no strict/fallback switch.  With no
LLM configured, a non-raising Price Engine call returns exactly the
heuristic fallback estimate (no error marker), and a non-raising Location
Engine call returns exactly the heuristic analysis (no error marker); the
zero-valued error objects arise only from raised exceptions. -/
theorem claim_no_strict_mode :
    (∀ (o : PriceOracle) (f : Features) (r : PriceResult),
      o.hasModel = false → fallback_estimate o.g f = .ok r →
      estimate_price o f = r ∧ r.error = Option.none) ∧
    (∀ (lat lon city district : FVal) (sqrtF : ℚ → ℚ) (j : ℚ) (r : LocResult),
      locBody lat lon city district sqrtF j = .ok r →
      analyze_location lat lon city district sqrtF j = r ∧
      r.error = Option.none) := by
  constructor
  · intro o f r hm h
    refine ⟨?_, fallback_estimate_ok_no_error o.g f r h⟩
    unfold estimate_price priceBody
    rw [hm]
    simp only [Bool.false_eq_true, if_false]
    rw [h]
  · intro lat lon city district sqrtF j r h
    refine ⟨?_, locBody_ok_no_error lat lon city district sqrtF j r h⟩
    unfold analyze_location
    rw [h]

/-- Witness for C7 (amended): the no-LLM Colombo call lands on the
heuristic path with no error marker. -/
theorem claim_no_strict_mode_witness :
    (estimate_price oNoModel fColombo).error = Option.none := by
  have h : fallback_estimate oNoModel.g fColombo =
      .ok (estimate_price oNoModel fColombo) := rfl
  exact (claim_no_strict_mode.1 oNoModel fColombo _ rfl h).2

/-- Helper: the numeric-field loop only ever stores the field it
processes. -/
theorem numericStep_keys (f : Features) (field k : String)
    (h : k ∈ (numericStep f field).2.map Prod.fst) : k = field := by
  unfold numericStep at h
  rcases hv : fget f field with _ | v <;> rw [hv] at h
  · simp at h
  dsimp only at h
  by_cases hn : (v != FVal.none) = true
  · rw [if_pos hn] at h
    rcases hf : pyFloatOfFVal v with e | q <;> rw [hf] at h
    · simp at h
    · simpa using h
  · rw [if_neg hn] at h
    simp at h

/-- C9: the validator's sanitized output only ever contains the keys
`city, lat, lon, beds, baths, area, year_built, asking_price`; in
particular `district`, `property_type` and `land_size` are never carried
into `sanitized_features`. -/
theorem claim_sanitized_feature_keys (f : Features) (k : String)
    (hk : k ∈ (validate_query_features f).sanitized_features.map Prod.fst) :
    k ∈ ["city", "lat", "lon", "beds", "baths", "area", "year_built",
      "asking_price"] ∧
    k ≠ "district" ∧ k ≠ "property_type" ∧ k ≠ "land_size" := by
  have hmem : k ∈ ["city", "lat", "lon", "beds", "baths", "area",
      "year_built", "asking_price"] := by
    unfold validate_query_features at hk
    dsimp only at hk
    rw [List.map_append, List.mem_append] at hk
    rcases hk with hc | hn
    · split at hc
      · split at hc
        · simp only [List.map_cons, List.map_nil, List.mem_singleton] at hc
          subst hc
          simp
        · simp at hc
      · simp at hc
    · simp only [List.map_map, List.mem_map, List.mem_flatten] at hn
      obtain ⟨p, ⟨l, hl, hp⟩, hk1⟩ := hn
      simp only [List.mem_map, Function.comp] at hl
      obtain ⟨field, hfield, hl2⟩ := hl
      subst hk1
      have hkf : p.1 = field := by
        apply numericStep_keys f field
        rw [hl2]
        exact List.mem_map_of_mem Prod.fst hp
      rw [hkf]
      have hsub : ∀ x ∈ numericFields, x ∈ ["city", "lat", "lon", "beds",
          "baths", "area", "year_built", "asking_price"] := by decide
      exact hsub field hfield
  refine ⟨hmem, ?_, ?_, ?_⟩ <;> rintro rfl <;> revert hmem <;> decide

/-- Witness for C9 at a one-field input. -/
theorem claim_sanitized_feature_keys_witness :
    "asking_price" ∈ ["city", "lat", "lon", "beds", "baths", "area",
      "year_built", "asking_price"] ∧
    "asking_price" ≠ "district" ∧ "asking_price" ≠ "property_type" ∧
    "asking_price" ≠ "land_size" :=
  claim_sanitized_feature_keys [("asking_price", FVal.num 5)] "asking_price"
    (by decide)

/-! ### C2: degraded pipeline result on any internal exception -/

/-- **C2.**  If any exception is raised inside the analysis-pipeline body,
`_run_analysis_pipeline` returns (never raises) the degraded result: the
`estimated_price` echoes the request's raw `asking_price` (default `0`),
the `location_score` is `0.5`, the deal verdict is `"Fair"`, the `why`
field is the fixed explanatory error text, and the confidence is `0.3`. -/
theorem claim_pipeline_degraded (o : PipeOracle) (f : Features) (qt : String)
    (tags : List String) (e : String)
    (h : pipelineBody o f qt tags = .error e) :
    run_analysis_pipeline o f qt tags = degradedResult f e ∧
    (run_analysis_pipeline o f qt tags).estimated_price
      = fgetD f "asking_price" (FVal.num 0) ∧
    (run_analysis_pipeline o f qt tags).location_score = 1/2 ∧
    (run_analysis_pipeline o f qt tags).deal_verdict = "Fair" ∧
    (run_analysis_pipeline o f qt tags).why
      = "Analysis incomplete due to system error" ∧
    (run_analysis_pipeline o f qt tags).confidence = 3/10 ∧
    (run_analysis_pipeline o f qt tags).error = some e := by
  have h1 : run_analysis_pipeline o f qt tags = degradedResult f e := by
    unfold run_analysis_pipeline
    rw [h]
  refine ⟨h1, ?_, ?_, ?_, ?_, ?_, ?_⟩ <;> (rw [h1]; rfl)

/-- Witness for C2: a market-value response whose `estimated_price` is a
JSON string makes the orchestrator's blend guard raise `TypeError`, and
the pipeline returns the degraded dictionary. -/
theorem claim_pipeline_degraded_witness :
    run_analysis_pipeline oC2 [] "" [] = degradedResult [] "TypeError" ∧
    (run_analysis_pipeline oC2 [] "" []).estimated_price
      = fgetD [] "asking_price" (FVal.num 0) ∧
    (run_analysis_pipeline oC2 [] "" []).location_score = 1/2 ∧
    (run_analysis_pipeline oC2 [] "" []).deal_verdict = "Fair" ∧
    (run_analysis_pipeline oC2 [] "" []).why
      = "Analysis incomplete due to system error" ∧
    (run_analysis_pipeline oC2 [] "" []).confidence = 3/10 ∧
    (run_analysis_pipeline oC2 [] "" []).error = some "TypeError" :=
  claim_pipeline_degraded oC2 [] "" [] "TypeError" rfl

/-! ### C5: LLM market-value blend -/

/-- **C5.**  Whenever the secondary LLM-backed market-value estimate is
available and positive, the price carried forward is the two-decimal
rounding of `conf*estimate + (1-conf)*llm`, where `conf` is the Price
Engine's own confidence for this request and `estimate` its (possibly
tag-adjusted) estimate, and `price_per_sqft` is recomputed from the
blended price when an area is given. -/
theorem claim_blend_formula (o : PipeOracle) (f : Features) (qt : String)
    (tags : List String) (m : LlmMarket) (lq a : ℚ) (b : Bool)
    (hlm : llm_estimate_market_value o.hasLlm o.marketResp f = some m)
    (hpos : jvalGt0 m.estimated_price = Except.ok true)
    (hlq : jvalAsNum m.estimated_price = Except.ok lq)
    (harea : fget f "area" = some (FVal.num a)) (ha : ¬ (a = 0))
    (hask : pyGtNum (fgetD f "asking_price" (FVal.num 0)) 0 = Except.ok b) :
    ∃ r, pipelineBody o f qt tags = Except.ok r ∧
      r.estimated_price = FVal.num (roundTo 2
        ((estimate_price o.priceO f).confidence
            * (tagAdjust tags (estimate_price o.priceO f).estimated_price).1
          + (1 - (estimate_price o.priceO f).confidence) * lq)) ∧
      r.price_per_sqft = some (roundTo 2 (roundTo 2
        ((estimate_price o.priceO f).confidence
            * (tagAdjust tags (estimate_price o.priceO f).estimated_price).1
          + (1 - (estimate_price o.priceO f).confidence) * lq) / a)) := by
  have hfd : fgetD f "area" FVal.none = FVal.num a := by
    unfold fgetD
    rw [harea]
    rfl
  have htr : (fgetD f "area" FVal.none).truthy = true := by
    rw [hfd]
    show (a != 0) = true
    simpa using ha
  have haz : ¬ ((a == 0) = true) := by simpa using ha
  dsimp only [pipelineBody]
  rw [hlm]
  dsimp only [blendGuard]
  rw [hpos]
  dsimp only [blendStep]
  rw [hlq]
  dsimp only
  rw [if_pos htr, if_pos htr, hfd]
  dsimp only [qDivFVal]
  rw [if_neg haz]
  dsimp only [afterBlend]
  rw [hask]
  exact ⟨_, rfl, rfl, rfl⟩

/-- Witness for C5 at a Colombo request with area 1000 and a positive
2,000,000-LKR market-value response. -/
theorem claim_blend_formula_witness :
    ∃ r, pipelineBody oC5 fColombo "" [] = Except.ok r ∧
      r.estimated_price = FVal.num (roundTo 2
        ((estimate_price oC5.priceO fColombo).confidence
            * (tagAdjust [] (estimate_price oC5.priceO fColombo).estimated_price).1
          + (1 - (estimate_price oC5.priceO fColombo).confidence) * 2000000)) ∧
      r.price_per_sqft = some (roundTo 2 (roundTo 2
        ((estimate_price oC5.priceO fColombo).confidence
            * (tagAdjust [] (estimate_price oC5.priceO fColombo).estimated_price).1
          + (1 - (estimate_price oC5.priceO fColombo).confidence) * 2000000) / 1000)) :=
  claim_blend_formula oC5 fColombo "" [] mC5 2000000 1000 true rfl rfl rfl rfl
    (by norm_num) rfl

end RealEstateAI
